import Mathlib

/-!
Verification development for the recommendation engine of the `plottwist-backend`
repository (`app/services/recommendation_service.py` and the data model it reads).

The relational state (books, genres, reviews, favorites, recommendation feedback)
is embedded as lists of rows.  The SQLAlchemy queries issued by the service are
embedded by their SQL semantics: a `JOIN` multiplies rows, `GROUP BY Book.id`
collapses them per book, `count(...)` counts the non-null joined rows (so a join
against a second table inflates the count of the first — the well-known fan-out),
`avg(Review.rating)` is the mean of the joined review rows (unaffected by uniform
duplication), `ORDER BY a DESC, b DESC` is modelled as a stable descending sort
over the base table order, and `LIMIT` as `List.take`.  Python's `sorted(...,
reverse=True)` is a stable sort as well; both are modelled with Mathlib's stable
`List.insertionSort`.  Floats are idealised as rationals, and Python's `round`
as round-half-to-even on rationals.
-/

namespace PlotTwist

/-- Model of `app.models.recommendation.RecommendationType`. -/
inductive RecommendationType where
  | content_based
  | popularity_based
deriving DecidableEq

/-- Model of `app.models.book.Genre` (the columns this subsystem reads). -/
structure Genre where
  id : Nat
  name : String
deriving DecidableEq

/-- Model of `app.models.book.Book`: its id together with its `genres`
relationship, given as the genre ids of the `book_genres` association rows in
relationship order (the association table's primary key makes them distinct). -/
structure Book where
  id : Nat
  genres : List Nat
deriving DecidableEq

/-- Model of `app.models.review.Review` (the columns this subsystem reads). -/
structure Review where
  id : Nat
  user_id : Nat
  book_id : Nat
  rating : ℚ
deriving DecidableEq

/-- Model of `app.models.favorite.Favorite` (the columns this subsystem reads). -/
structure Favorite where
  id : Nat
  user_id : Nat
  book_id : Nat
deriving DecidableEq

/-- Model of a persisted `app.models.recommendation.RecommendationFeedback` row. -/
structure RecommendationFeedback where
  id : Nat
  user_id : Nat
  book_id : Nat
  recommendation_type : RecommendationType
  is_positive : Bool
  context_data : Option String
deriving DecidableEq

/-- The relational state the service reads and writes.  `next_feedback_id` models
the autoincrement sequence behind `RecommendationFeedback.id`. -/
structure DB where
  books : List Book
  genres : List Genre
  reviews : List Review
  favorites : List Favorite
  feedback : List RecommendationFeedback
  next_feedback_id : Nat
deriving DecidableEq

/-- Model of `app.schemas.recommendation.RecommendationParameters`.  All four
fields are `Optional` in the pydantic schema, hence `Option` here. -/
structure RecommendationParameters where
  limit : Option Nat
  exclude_user_books : Option Bool
  min_rating : Option ℚ
  genres : Option (List Nat)
deriving DecidableEq

/-- Model of `app.schemas.recommendation.RecommendationItem`. -/
structure RecommendationItem where
  book : Book
  score : ℚ
  reason : String
  recommendation_type : RecommendationType
deriving DecidableEq

/-- Model of `app.schemas.recommendation.RecommendationFeedbackCreate`. -/
structure RecommendationFeedbackCreate where
  book_id : Nat
  recommendation_type : RecommendationType
  is_positive : Bool
  context_data : Option String
deriving DecidableEq

/-- Model of `app.schemas.recommendation.RecommendationStats`. -/
structure RecommendationStats where
  recommendation_type : RecommendationType
  total_generated : Nat
  total_feedback : Nat
  positive_feedback : Nat
  negative_feedback : Nat
  feedback_rate : ℚ
  positive_rate : ℚ
  avg_score : Option ℚ
deriving DecidableEq

/-! ### Python truthiness and rounding -/

/-- Python truthiness of an `Optional[bool]` (`None` and `False` are falsy). -/
def truthyB : Option Bool → Bool
  | none => false
  | some b => b

/-- Python truthiness of an `Optional[float]` (`None` and `0.0` are falsy). -/
def truthyQ : Option ℚ → Bool
  | none => false
  | some q => decide (q ≠ 0)

/-- Python truthiness of an `Optional[List[int]]` (`None` and `[]` are falsy). -/
def truthyL : Option (List Nat) → Bool
  | none => false
  | some l => !l.isEmpty

/-- Round-half-to-even to an integer: the idealisation over `ℚ` of Python's
banker's rounding (`Rat.floor` is the computable floor, equal to `⌊q⌋`). -/
def roundHalfEven (q : ℚ) : ℤ :=
  if q - Rat.floor q < 1 / 2 then Rat.floor q
  else if 1 / 2 < q - Rat.floor q then Rat.floor q + 1
  else if Rat.floor q % 2 = 0 then Rat.floor q else Rat.floor q + 1

/-- Model of Python's `round(x, 3)`. -/
def round3 (q : ℚ) : ℚ := (roundHalfEven (q * 1000) : ℚ) / 1000

/-! ### Decimal rendering (models Python `str`/format of numbers) -/

/-- The character of a decimal digit. -/
def digitChar (d : Nat) : Char := Char.ofNat (48 + d)

/-- Fuel-indexed decimal rendering (structural recursion so that the kernel can
evaluate it; any fuel with `n < 10 ^ fuel` gives the digits of `n`). -/
def natDecAux : Nat → Nat → List Char
  | 0, _ => []
  | fuel + 1, n =>
    if n < 10 then [digitChar n]
    else natDecAux fuel (n / 10) ++ [digitChar (n % 10)]

/-- Decimal digits of a natural number; models Python `str(int)` (also used by
`str` of an int list and by float formatting). -/
def natDec (n : Nat) : List Char := natDecAux (n + 1) n

/-- String form of a natural number. -/
def natStr (n : Nat) : String := String.mk (natDec n)

/-- Model of Python's `f"{x:.1f}"` for a nonnegative rational: round half to even
at one decimal and print one digit after the point. -/
def fmtOneDec (q : ℚ) : String :=
  let r := (roundHalfEven (q * 10)).toNat
  natStr (r / 10) ++ "." ++ String.mk [digitChar (r % 10)]

/-- Model of `", ".join(...)`. -/
def joinSep (sep : String) : List String → String
  | [] => ""
  | [s] => s
  | s :: rest => s ++ sep ++ joinSep sep rest

/-! ### Aggregates of the catalog (the per-book quantities the queries group to) -/

/-- The review rows of one book. -/
def bookReviews (db : DB) (bid : Nat) : List Review :=
  db.reviews.filter (fun r => decide (r.book_id = bid))

/-- The number of reviews of one book. -/
def reviewCount (db : DB) (bid : Nat) : Nat := (bookReviews db bid).length

/-- The mean review rating of one book; `0` in place of SQL `NULL` when the book
has no reviews (every code path guards on a positive review count first). -/
def avgRating (db : DB) (bid : Nat) : ℚ :=
  ((bookReviews db bid).map (fun r => r.rating)).sum / (reviewCount db bid : ℚ)

/-- The number of favorite rows of one book. -/
def favoriteCount (db : DB) (bid : Nat) : Nat :=
  (db.favorites.filter (fun f => decide (f.book_id = bid))).length

/-- The genre `name` for a genre id (the `Genre` rows joined through the
`book_genres` association). -/
def genreName (db : DB) (gid : Nat) : String :=
  match db.genres.find? (fun g => decide (g.id = gid)) with
  | some g => g.name
  | none => ""

/-! ### Exclusion Set Builder (lines 58-70, 129-141, 210-222 of the service) -/

/-- The union query of the user's favorited and reviewed book ids:
`query(Favorite.book_id).filter(user).union(query(Review.book_id).filter(user))`.
Membership and emptiness are all the callers use, so duplicates are harmless. -/
def userBookIds (db : DB) (uid : Nat) : List Nat :=
  (db.favorites.filter (fun f => decide (f.user_id = uid))).map (fun f => f.book_id)
    ++ (db.reviews.filter (fun r => decide (r.user_id = uid))).map (fun r => r.book_id)

/-- `user_books` as each strategy computes it: the union above when
`params.exclude_user_books` is truthy, else the empty set. -/
def excludedBooks (db : DB) (uid : Nat) (params : RecommendationParameters) : List Nat :=
  if truthyB params.exclude_user_books then userBookIds db uid else []

/-- The SQL filter `~Book.id.in_(user_books)`, which the code only attaches when
the set is nonempty (`if user_books:`). -/
def passesExclusion (user_books : List Nat) (b : Book) : Bool :=
  if user_books.isEmpty then true else decide (b.id ∉ user_books)

/-! ### Affinity Extractor (lines 40-56 of the service) -/

/-- Fuel-indexed first-occurrence deduplication (structural recursion so that
the kernel can evaluate it; the list's length is always sufficient fuel). -/
def dedupFirstAux : Nat → List Nat → List Nat
  | 0, _ => []
  | _ + 1, [] => []
  | fuel + 1, a :: l => a :: dedupFirstAux fuel (l.filter (fun x => decide (x ≠ a)))

/-- First-occurrence deduplication (determinises the unspecified `GROUP BY`
enumeration order of the genre ids, and models Python set intersection size). -/
def dedupFirst (l : List Nat) : List Nat := dedupFirstAux l.length l

/-- The `Book` rows joined through the user's favorites
(`join(Favorite, Book.id == Favorite.book_id).filter(Favorite.user_id == uid)`). -/
def favoritedBooks (db : DB) (uid : Nat) : List Book :=
  (db.favorites.filter (fun f => decide (f.user_id = uid))).filterMap
    (fun f => db.books.find? (fun b => decide (b.id = f.book_id)))

/-- `count(Genre.id)` for one genre over the favorites join: the number of
association rows with this genre among the user's favorited books. -/
def genreFavCount (db : DB) (uid : Nat) (g : Nat) : Nat :=
  ((favoritedBooks db uid).map (fun b => b.genres.count g)).sum

/-- Descending order by the grouped count (`order_by(desc('genre_count'))`),
stable over the grouped enumeration order. -/
def genreCountGE (x y : Nat × Nat) : Prop := y.2 ≤ x.2

instance : DecidableRel genreCountGE := fun x y => by
  unfold genreCountGE; infer_instance

/-- The `user_favorite_genres` query result: `(genre id, count)` pairs grouped
over the favorites join, ordered by count descending. -/
def userFavoriteGenres (db : DB) (uid : Nat) : List (Nat × Nat) :=
  let gids := dedupFirst (((favoritedBooks db uid).map (fun b => b.genres)).flatten)
  List.insertionSort genreCountGE (gids.map (fun g => (g, genreFavCount db uid g)))

/-- `top_genre_ids`: the ids of the top 5 affinity genres (line 56). -/
def topGenreIds (db : DB) (uid : Nat) : List Nat :=
  ((userFavoriteGenres db uid).take 5).map (fun p => p.1)

/-! ### SQL `LIMIT` -/

/-- `query.limit(x)`: SQLAlchemy applies no limit when `x` is `None`. -/
def applyLimit : Option Nat → List α → List α
  | none, l => l
  | some n, l => l.take n

/-! ### Fallback Strategy (lines 200-253 of the service)

The query (lines 225-235) joins `books LEFT OUTER JOIN reviews`, groups by
`Book.id`, keeps groups with `count(Review.id) >= 1`, optionally filters the
exclusion set, orders by `avg_rating` then `review_count` descending and limits. -/

/-- A row `(Book, avg_rating, review_count)` of the fallback (and content)
candidate query. -/
structure CandidateRow where
  book : Book
  avg_rating : ℚ
  review_count : Nat
deriving DecidableEq

/-- `ORDER BY avg_rating DESC, review_count DESC` as a relation: `x` may come
before `y`. -/
def candidateRowGE (x y : CandidateRow) : Prop :=
  y.avg_rating < x.avg_rating ∨
    (y.avg_rating = x.avg_rating ∧ y.review_count ≤ x.review_count)

instance : DecidableRel candidateRowGE := fun x y => by
  unfold candidateRowGE; infer_instance

/-- The fallback query row of one book (no fan-out here: only the review join). -/
def fallbackRowOf (db : DB) (b : Book) : CandidateRow :=
  { book := b, avg_rating := avgRating db b.id, review_count := reviewCount db b.id }

/-- The fallback query's `HAVING`/`WHERE` conditions on one book. -/
def fallbackKeeps (db : DB) (user_books : List Nat) (b : Book) : Bool :=
  decide (1 ≤ reviewCount db b.id) && passesExclusion user_books b

/-- The full fallback candidate query result (lines 225-235). -/
def fallbackQueryRows (db : DB) (uid : Nat) (params : RecommendationParameters) :
    List CandidateRow :=
  let user_books := excludedBooks db uid params
  applyLimit params.limit
    (List.insertionSort candidateRowGE
      ((db.books.filter (fallbackKeeps db user_books)).map (fallbackRowOf db)))

/-- One `RecommendationItem` of the fallback loop (lines 238-247). -/
def mkFallbackItem (t : RecommendationType) (row : CandidateRow) : RecommendationItem :=
  { book := row.book
    score := round3 (if row.avg_rating = 0 then 0 else row.avg_rating / 5)
    reason :=
      if row.avg_rating ≠ 0 then "Trending book (" ++ fmtOneDec row.avg_rating ++ "★)"
      else "Popular book"
    recommendation_type := t }

/-- `RecommendationType(rec_type)`: Python raises `ValueError` on any other
string, which the fallback's `except` turns into `[]`. -/
def recommendationTypeOfString : String → Option RecommendationType
  | "content_based" => some RecommendationType.content_based
  | "popularity_based" => some RecommendationType.popularity_based
  | _ => none

/-- Fault points of `_get_fallback_recommendations`' `try` block: the exclusion
query (only executed when the exclusion flag is truthy) and the candidate query. -/
structure FallbackFaults where
  exclusion_fault : Bool
  candidate_fault : Bool
deriving DecidableEq

/-- `_get_fallback_recommendations` with its `try`/`except` modelled by explicit
fault injection: any fault inside the `try` yields `[]`.  When `rec_type` is not
a valid enum value and the loop body runs, `RecommendationType(rec_type)` raises
and the `except` returns `[]`; when the query is empty the loop never runs and
the empty items list is returned — both give `[]`, folded into the `none` arm. -/
def get_fallback_recommendationsE (db : DB) (uid : Nat) (params : RecommendationParameters)
    (rec_type : String) (fl : FallbackFaults) : List RecommendationItem :=
  if fl.exclusion_fault && truthyB params.exclude_user_books then []
  else if fl.candidate_fault then []
  else
    match recommendationTypeOfString rec_type with
    | some t => (fallbackQueryRows db uid params).map (mkFallbackItem t)
    | none => []

/-- `_get_fallback_recommendations` in normal operation (no query faults). -/
def get_fallback_recommendations (db : DB) (uid : Nat) (params : RecommendationParameters)
    (rec_type : String) : List RecommendationItem :=
  get_fallback_recommendationsE db uid params rec_type ⟨false, false⟩

/-! ### Content-Based Scorer (lines 31-118 of the service)

The candidate query (lines 73-88) joins `books JOIN book_genres JOIN genres
LEFT OUTER JOIN reviews`, filters `Genre.id IN top_genre_ids`, groups by
`Book.id` and keeps groups with `count(Review.id) >= 3`.  Per book the joined
rows are (matching genre tags) × (review rows), so with `g` matching genres and
`r` reviews the grouped `count(Review.id)` is `g * r` (0 when `r = 0`) while
`avg(Review.rating)` is still the true mean. -/

/-- The number of the book's association rows whose genre is in the list
(the genre-join multiplicity `g`). -/
def genreMatchCount (b : Book) (gids : List Nat) : Nat :=
  (b.genres.filter (fun g => decide (g ∈ gids))).length

/-- The content query row of one book: `review_count` is the fanned-out
`count(Review.id)` aggregate `g * r`. -/
def contentRowOf (db : DB) (tops : List Nat) (b : Book) : CandidateRow :=
  { book := b, avg_rating := avgRating db b.id
    review_count := genreMatchCount b tops * reviewCount db b.id }

/-- The SQL `HAVING avg(Review.rating) >= min_rating`, attached only when
`params.min_rating` is truthy (`if params.min_rating:` — `None` and `0.0` skip). -/
def passesMinRating (db : DB) (min_rating : Option ℚ) (b : Book) : Bool :=
  match min_rating with
  | some mr => if mr = 0 then true else decide (mr ≤ avgRating db b.id)
  | none => true

/-- The content query's join/`HAVING`/`WHERE` conditions on one book: a matching
genre tag (inner join), fanned-out review count at least 3, the optional
minimum-rating floor, and the exclusion filter. -/
def contentKeeps (db : DB) (tops : List Nat) (user_books : List Nat)
    (min_rating : Option ℚ) (b : Book) : Bool :=
  decide (1 ≤ genreMatchCount b tops) &&
  decide (3 ≤ genreMatchCount b tops * reviewCount db b.id) &&
  passesMinRating db min_rating b &&
  passesExclusion user_books b

/-- The full content candidate query result (lines 73-88). -/
def contentQueryRows (db : DB) (uid : Nat) (params : RecommendationParameters)
    (tops : List Nat) : List CandidateRow :=
  let user_books := excludedBooks db uid params
  applyLimit params.limit
    (List.insertionSort candidateRowGE
      ((db.books.filter (contentKeeps db tops user_books params.min_rating)).map
        (contentRowOf db tops)))

/-- `len(book_genres.intersection(set(top_genre_ids)))` — a set intersection,
hence counted without duplicates. -/
def genreOverlap (b : Book) (tops : List Nat) : Nat :=
  (dedupFirst (b.genres.filter (fun g => decide (g ∈ tops)))).length

/-- The reason string of a content-based item (lines 102-105). -/
def contentReason (db : DB) (tops : List Nat) (b : Book) : String :=
  let matched := (b.genres.filter (fun g => decide (g ∈ tops))).map (genreName db)
  "Similar to your favorites in " ++ joinSep ", " (matched.take 2) ++
    (if 2 < matched.length then
      " and " ++ natStr (matched.length - 2) ++ " other genre(s)" else "")

/-- One `RecommendationItem` of the content loop (lines 91-112): the genre score
blended with the quality score, rounded to 3 decimals. -/
def mkContentItem (db : DB) (tops : List Nat) (row : CandidateRow) : RecommendationItem :=
  let genre_score : ℚ :=
    if tops.isEmpty then 0 else (genreOverlap row.book tops : ℚ) / (tops.length : ℚ)
  let quality_score : ℚ :=
    (row.avg_rating / 5) * (7 / 10) + min ((row.review_count : ℚ) / 100) 1 * (3 / 10)
  { book := row.book
    score := round3 (genre_score * (6 / 10) + quality_score * (4 / 10))
    reason := contentReason db tops row.book
    recommendation_type := RecommendationType.content_based }

/-- Descending order by the item's `score` (Python's
`sorted(recommendations, key=lambda x: x.score, reverse=True)`). -/
def itemScoreGE (x y : RecommendationItem) : Prop := y.score ≤ x.score

instance : DecidableRel itemScoreGE := fun x y => by
  unfold itemScoreGE; infer_instance

/-- Fault points of `get_content_based_recommendations`' `try` block: the
affinity query, the exclusion query (only executed when the exclusion flag is
truthy), and the candidate query. -/
structure ContentFaults where
  affinity_fault : Bool
  exclusion_fault : Bool
  candidate_fault : Bool
deriving DecidableEq

/-- `get_content_based_recommendations` with the `try`/`except` modelled by
fault injection: any fault, like an empty affinity set, routes to
`_get_fallback_recommendations(user_id, params, "content_based")`. -/
def get_content_based_recommendationsE (db : DB) (uid : Nat)
    (params : RecommendationParameters) (fl : ContentFaults) : List RecommendationItem :=
  if fl.affinity_fault then get_fallback_recommendations db uid params "content_based"
  else if (userFavoriteGenres db uid).isEmpty then
    get_fallback_recommendations db uid params "content_based"
  else if fl.exclusion_fault && truthyB params.exclude_user_books then
    get_fallback_recommendations db uid params "content_based"
  else if fl.candidate_fault then
    get_fallback_recommendations db uid params "content_based"
  else
    let tops := topGenreIds db uid
    List.insertionSort itemScoreGE
      ((contentQueryRows db uid params tops).map (mkContentItem db tops))

/-- `get_content_based_recommendations` in normal operation (no query faults). -/
def get_content_based_recommendations (db : DB) (uid : Nat)
    (params : RecommendationParameters) : List RecommendationItem :=
  get_content_based_recommendationsE db uid params ⟨false, false, false⟩

/-! ### Popularity Scorer (lines 120-198 of the service)

The candidate query (lines 144-170) joins `books LEFT OUTER JOIN reviews
LEFT OUTER JOIN favorites` (and `JOIN book_genres JOIN genres` when a genre
allow-list is given), groups by `Book.id` and keeps groups with
`count(Review.id) >= 1`.  With `r` reviews, `f` favorites and genre-join
multiplicity `m`, the joined rows are `max r 1 * max f 1 * m` per book, so
`count(Review.id)` is `r * max f 1 * m` (0 when `r = 0`) and `count(Favorite.id)`
is `f * max r 1 * m` (0 when `f = 0`), while `avg(Review.rating)` is the mean. -/

/-- The genre-join multiplicity: 1 when no genre allow-list is attached
(`if params.genres:` — `None` and `[]` are falsy), else the number of the
book's association rows matching the list. -/
def popGenreMult (genres : Option (List Nat)) (b : Book) : Nat :=
  match genres with
  | some gl => if gl.isEmpty then 1 else genreMatchCount b gl
  | none => 1

/-- The grouped `count(Review.id)` aggregate of the popularity query. -/
def popReviewAgg (db : DB) (params : RecommendationParameters) (b : Book) : Nat :=
  reviewCount db b.id * max (favoriteCount db b.id) 1 * popGenreMult params.genres b

/-- The grouped `count(Favorite.id)` aggregate of the popularity query. -/
def popFavAgg (db : DB) (params : RecommendationParameters) (b : Book) : Nat :=
  favoriteCount db b.id * max (reviewCount db b.id) 1 * popGenreMult params.genres b

/-- A row `(Book, avg_rating, review_count, favorite_count)` of the popularity
candidate query. -/
structure PopRow where
  book : Book
  avg_rating : ℚ
  review_count : Nat
  favorite_count : Nat
deriving DecidableEq

/-- `ORDER BY avg_rating DESC, review_count DESC, favorite_count DESC`. -/
def popRowGE (x y : PopRow) : Prop :=
  y.avg_rating < x.avg_rating ∨
    (y.avg_rating = x.avg_rating ∧
      (y.review_count < x.review_count ∨
        (y.review_count = x.review_count ∧ y.favorite_count ≤ x.favorite_count)))

instance : DecidableRel popRowGE := fun x y => by
  unfold popRowGE; infer_instance

/-- The popularity query row of one book. -/
def popRowOf (db : DB) (params : RecommendationParameters) (b : Book) : PopRow :=
  { book := b, avg_rating := avgRating db b.id
    review_count := popReviewAgg db params b
    favorite_count := popFavAgg db params b }

/-- The popularity query's join/`HAVING`/`WHERE` conditions on one book. -/
def popKeeps (db : DB) (params : RecommendationParameters) (user_books : List Nat)
    (b : Book) : Bool :=
  decide (1 ≤ popReviewAgg db params b) &&
  passesMinRating db params.min_rating b &&
  passesExclusion user_books b &&
  (if truthyL params.genres then decide (1 ≤ popGenreMult params.genres b) else true)

/-- The full popularity candidate query result (lines 144-170). -/
def popQueryRows (db : DB) (uid : Nat) (params : RecommendationParameters) : List PopRow :=
  let user_books := excludedBooks db uid params
  applyLimit params.limit
    (List.insertionSort popRowGE
      ((db.books.filter (popKeeps db params user_books)).map (popRowOf db params)))

/-- One `RecommendationItem` of the popularity loop (lines 173-192). -/
def mkPopItem (row : PopRow) : RecommendationItem :=
  let rating_score : ℚ := if row.avg_rating = 0 then 0 else row.avg_rating / 5
  let review_score : ℚ := min ((row.review_count : ℚ) / 100) 1
  let favorite_score : ℚ := min ((row.favorite_count : ℚ) / 50) 1
  { book := row.book
    score := round3 (rating_score * (1 / 2) + review_score * (3 / 10) + favorite_score * (1 / 5))
    reason :=
      "Highly rated (" ++ fmtOneDec row.avg_rating ++ "★) with " ++
        natStr row.review_count ++ " reviews" ++
        (if 0 < row.favorite_count then
          " and " ++ natStr row.favorite_count ++ " favorites" else "")
    recommendation_type := RecommendationType.popularity_based }

/-- Fault points of `get_popularity_based_recommendations`' `try` block. -/
structure PopFaults where
  exclusion_fault : Bool
  candidate_fault : Bool
deriving DecidableEq

/-- `get_popularity_based_recommendations` with the `try`/`except` modelled by
fault injection: any fault routes to
`_get_fallback_recommendations(user_id, params, "popularity_based")`. -/
def get_popularity_based_recommendationsE (db : DB) (uid : Nat)
    (params : RecommendationParameters) (fl : PopFaults) : List RecommendationItem :=
  if fl.exclusion_fault && truthyB params.exclude_user_books then
    get_fallback_recommendations db uid params "popularity_based"
  else if fl.candidate_fault then
    get_fallback_recommendations db uid params "popularity_based"
  else
    List.insertionSort itemScoreGE ((popQueryRows db uid params).map mkPopItem)

/-- `get_popularity_based_recommendations` in normal operation. -/
def get_popularity_based_recommendations (db : DB) (uid : Nat)
    (params : RecommendationParameters) : List RecommendationItem :=
  get_popularity_based_recommendationsE db uid params ⟨false, false⟩

/-! ### Feedback Recorder (lines 255-274) and Stats Aggregator (lines 276-327) -/

/-- `create_recommendation_feedback`: append one feedback row (the insert plus
`commit`/`refresh`), returning the new state and the persisted row with its
assigned autoincrement id. -/
def create_recommendation_feedback (db : DB) (uid : Nat)
    (fd : RecommendationFeedbackCreate) : DB × RecommendationFeedback :=
  let row : RecommendationFeedback :=
    { id := db.next_feedback_id, user_id := uid, book_id := fd.book_id
      recommendation_type := fd.recommendation_type, is_positive := fd.is_positive
      context_data := fd.context_data }
  ({ db with feedback := db.feedback ++ [row], next_feedback_id := db.next_feedback_id + 1 },
    row)

/-- The dict update of the grouping loop: increment the counters of the entry
whose key is the feedback's recommendation type, leave other entries alone. -/
def bumpFeedback (fb : RecommendationFeedback)
    (e : RecommendationType × Nat × Nat × Nat) : RecommendationType × Nat × Nat × Nat :=
  if e.1 = fb.recommendation_type then
    (e.1, e.2.1 + 1,
      e.2.2.1 + (if fb.is_positive then 1 else 0),
      e.2.2.2 + (if fb.is_positive then 0 else 1))
  else e

/-- One step of the grouping loop (lines 291-305): a Python dict keyed by
recommendation type in insertion order, holding
`(total_feedback, positive_feedback, negative_feedback)`. -/
def addFeedback (acc : List (RecommendationType × Nat × Nat × Nat))
    (fb : RecommendationFeedback) : List (RecommendationType × Nat × Nat × Nat) :=
  if acc.any (fun e => decide (e.1 = fb.recommendation_type)) then
    acc.map (bumpFeedback fb)
  else
    acc ++ [(fb.recommendation_type, 1,
      (if fb.is_positive then 1 else 0), (if fb.is_positive then 0 else 1))]

/-- `stats_by_type` after the grouping loop. -/
def statsGroups (rows : List RecommendationFeedback) :
    List (RecommendationType × Nat × Nat × Nat) :=
  rows.foldl addFeedback []

/-- `get_recommendation_stats` (lines 276-327): optional type filter, grouping,
and the per-type statistics with the assumed fixed denominator of 100. -/
def get_recommendation_stats (db : DB) (recommendation_type : Option RecommendationType) :
    List RecommendationStats :=
  let rows := match recommendation_type with
    | some t => db.feedback.filter (fun fb => decide (fb.recommendation_type = t))
    | none => db.feedback
  (statsGroups rows).map (fun e =>
    { recommendation_type := e.1
      total_generated := 100
      total_feedback := e.2.1
      positive_feedback := e.2.2.1
      negative_feedback := e.2.2.2
      feedback_rate := round3 ((e.2.1 : ℚ) / 100)
      positive_rate := round3 (if e.2.1 = 0 then 0 else (e.2.2.1 : ℚ) / (e.2.1 : ℚ))
      avg_score := none })

/-- The `total_feedback` that `get_recommendation_stats` reports for a strategy
tag (0 when the tag has no entry — strategies with zero feedback are omitted). -/
def totalFeedbackFor (stats : List RecommendationStats) (t : RecommendationType) : Nat :=
  match stats.find? (fun s => decide (s.recommendation_type = t)) with
  | some s => s.total_feedback
  | none => 0

/-! ### Cache-Key Deriver (lines 329-335 of the service)

`params_str = f"{params.limit}_{params.exclude_user_books}_{params.min_rating}_{params.genres}"`
and `cache_string = f"rec_{user_id}_{rec_type}_{params_str}"`, hashed with
`hashlib.md5(...).hexdigest()`.  The segments are modelled at the character-list
level; the Python `str()` of each field value is modelled by the decimal
renderers below. -/

/-- Zero-padded decimal digits: `k` characters encoding `m` (for `m < 10^k`). -/
def padDec (m k : Nat) : List Char :=
  List.replicate (k - (natDec m).length) '0' ++ natDec m

/-- The least exponent `k ≤ d` with `d ∣ 10^k` (0 when there is none): the
number of decimal digits after the point in the exact finite expansion. -/
def decExpLen (d : Nat) : Nat :=
  match (List.range (d + 1)).find? (fun k => decide (10 ^ k % d = 0)) with
  | some k => k
  | none => 0

/-- Model of Python's `str(float)` for a nonnegative value with a finite decimal
expansion: the shortest decimal digits, with at least one digit after the point
(`str(4.0) == "4.0"`, `str(3.5) == "3.5"`, `str(0.25) == "0.25"`). -/
def pyFloatChars (q : ℚ) : List Char :=
  let kk := max (decExpLen q.den) 1
  let m := (q * (10 : ℚ) ^ kk).num.toNat
  natDec (m / 10 ^ kk) ++ '.' :: padDec (m % 10 ^ kk) kk

/-- Python `str` of `params.limit` (`Optional[int]`). -/
def optIntChars : Option Nat → List Char
  | none => "None".data
  | some n => natDec n

/-- Python `str` of `params.exclude_user_books` (`Optional[bool]`). -/
def optBoolChars : Option Bool → List Char
  | none => "None".data
  | some true => "True".data
  | some false => "False".data

/-- Python `str` of `params.min_rating` (`Optional[float]`). -/
def optFloatChars : Option ℚ → List Char
  | none => "None".data
  | some q => pyFloatChars q

/-- The inner part of Python's `str` of an int list: `", "`-joined decimals. -/
def intListChars : List Nat → List Char
  | [] => []
  | [n] => natDec n
  | n :: rest => natDec n ++ ',' :: ' ' :: intListChars rest

/-- Python `str` of `params.genres` (`Optional[List[int]]`):
`"None"`, `"[]"`, `"[1, 2]"`, ... -/
def optListChars : Option (List Nat) → List Char
  | none => "None".data
  | some l => '[' :: (intListChars l ++ [']'])

/-- The characters of `params_str` (line 333). -/
def paramsChars (p : RecommendationParameters) : List Char :=
  optIntChars p.limit ++ '_' :: (optBoolChars p.exclude_user_books ++
    '_' :: (optFloatChars p.min_rating ++ '_' :: optListChars p.genres))

/-- The characters of `cache_string` (line 334). -/
def cacheChars (user_id : Nat) (rec_type : String) (p : RecommendationParameters) :
    List Char :=
  "rec_".data ++ (natDec user_id ++ '_' :: (rec_type.data ++ '_' :: paramsChars p))

/-- The pre-hash string `cache_string` of `_generate_cache_key`. -/
def cache_string (user_id : Nat) (rec_type : String) (p : RecommendationParameters) :
    String :=
  String.mk (cacheChars user_id rec_type p)

/-- The character of a hex digit. -/
def hexDigit (d : Nat) : Char :=
  if d < 10 then digitChar d else Char.ofNat (97 + (d - 10))

/-- Modelled from the spec: `hashlib.md5(...).hexdigest()` is Python standard
library code outside this repository; per the spec (§4.8) the engine only relies
on it being a deterministic fixed-length digest — 32 lowercase hex characters
computed from the input string alone.  The compression below is a simple 128-bit
fold standing in for the MD5 rounds; determinism and the fixed 32-character
output are preserved. -/
def md5hex (s : String) : String :=
  let h := s.data.foldl (fun a c => (a * 131 + c.toNat + 11) % 2 ^ 128) 88172645463325252
  String.mk ((List.range 32).map (fun i => hexDigit (h / 16 ^ (31 - i) % 16)))

/-- `_generate_cache_key` (lines 329-335). -/
def generate_cache_key (user_id : Nat) (rec_type : String)
    (p : RecommendationParameters) : String :=
  md5hex (cache_string user_id rec_type p)

/-- `invalidate_user_cache` (lines 337-344): a documented no-op hook. -/
def invalidate_user_cache (db : DB) (_uid : Nat) : DB := db

/-! ### Item-level recomputations of the candidate-query sort keys -/

/-- The fallback query's full `ORDER BY` key relation recomputed on items. -/
def fallbackItemGE (db : DB) (x y : RecommendationItem) : Prop :=
  candidateRowGE (fallbackRowOf db x.book) (fallbackRowOf db y.book)

/-- The content query's full `ORDER BY` key relation recomputed on items. -/
def contentItemGE (db : DB) (tops : List Nat) (x y : RecommendationItem) : Prop :=
  candidateRowGE (contentRowOf db tops x.book) (contentRowOf db tops y.book)

/-- The popularity query's full `ORDER BY` key relation recomputed on items. -/
def popItemGE (db : DB) (params : RecommendationParameters)
    (x y : RecommendationItem) : Prop :=
  popRowGE (popRowOf db params x.book) (popRowOf db params y.book)

/-- Decimal-digit test used by the cache-string injectivity arguments. -/
def isDigitC (c : Char) : Bool := decide (48 ≤ c.toNat) && decide (c.toNat ≤ 57)

/-- The numeric value of a digit string (most significant first). -/
def digitsVal (l : List Char) : Nat := l.foldl (fun a c => 10 * a + (c.toNat - 48)) 0

/-! ### Concrete states used by witnesses and counterexamples -/

/-- A book with 2 reviews (both rating 5) and 2 favorites: the popularity query's
review/favorite joins fan out to 2 × 2 rows. -/
def dbFanPop : DB :=
  { books := [⟨1, []⟩], genres := [], reviews := [⟨1, 2, 1, 5⟩, ⟨2, 3, 1, 5⟩],
    favorites := [⟨1, 2, 1⟩, ⟨2, 3, 1⟩], feedback := [], next_feedback_id := 0 }

/-- User 1 favorites book 10 (genres 1, 2, 3); book 20 shares all three genres
but has a single review, so the content query's genre join fans its review
count out to 3. -/
def dbFanContent : DB :=
  { books := [⟨10, [1, 2, 3]⟩, ⟨20, [1, 2, 3]⟩],
    genres := [⟨1, "G1"⟩, ⟨2, "G2"⟩, ⟨3, "G3"⟩],
    reviews := [⟨1, 2, 20, 5⟩], favorites := [⟨1, 1, 10⟩],
    feedback := [], next_feedback_id := 0 }

/-- Book 1: one review at 4.002; book 2: two reviews at 4.0 — the two rounded
scores coincide while the mean ratings and review counts order oppositely. -/
def dbTie : DB :=
  { books := [⟨1, []⟩, ⟨2, []⟩], genres := [],
    reviews := [⟨1, 2, 1, 2001 / 500⟩, ⟨2, 2, 2, 4⟩, ⟨3, 3, 2, 4⟩],
    favorites := [], feedback := [], next_feedback_id := 0 }

/-- User 1 favorited book 1 and reviewed book 2; book 3 is a well-reviewed
candidate with the shared genre. -/
def dbExcl : DB :=
  { books := [⟨1, [1]⟩, ⟨2, [1]⟩, ⟨3, [1]⟩], genres := [⟨1, "G1"⟩],
    reviews := [⟨1, 1, 2, 4⟩, ⟨2, 2, 3, 5⟩, ⟨3, 3, 3, 5⟩, ⟨4, 4, 3, 5⟩, ⟨5, 5, 2, 4⟩,
      ⟨6, 6, 2, 4⟩],
    favorites := [⟨1, 1, 1⟩, ⟨2, 2, 3⟩], feedback := [], next_feedback_id := 0 }

/-- The default parameters: `limit=10`, `exclude_user_books=True`. -/
def pDefault : RecommendationParameters := ⟨some 10, some true, none, none⟩

/-- An empty catalog state. -/
def dbEmpty : DB :=
  { books := [], genres := [], reviews := [], favorites := [], feedback := [],
    next_feedback_id := 0 }

/-- Parameters with `limit=5`. -/
def pLimit5 : RecommendationParameters := ⟨some 5, some true, none, none⟩

/-- The values Python's float repr model covers: absent, or a nonnegative
rational with a finite decimal expansion (every float the validation boundary
admits for `min_rating` is of this form). -/
def floatOk : Option ℚ → Prop
  | none => True
  | some q => 0 ≤ q ∧ q.den ∣ 10 ^ q.den

/-- The `total_feedback` counter of one strategy tag in the grouping dict
(0 when the tag has no entry). -/
def groupTotal (acc : List (RecommendationType × Nat × Nat × Nat))
    (t : RecommendationType) : Nat :=
  match acc.find? (fun e => decide (e.1 = t)) with
  | some e => e.2.1
  | none => 0

/-! ### Generic lemmas: stable sorting, ties, limits, rounding -/

/-- Inserting `x` into `l` preserves a pairwise relation `T`, provided `T`
relates `x` to everything in `l` and relates `b` back to `x` whenever the sort
relation lets `b` stay in front of `x`. -/
theorem pairwise_orderedInsert_ties {α : Type} {r : α → α → Prop} [DecidableRel r]
    {T : α → α → Prop} (x : α) :
    ∀ {l : List α}, l.Pairwise T → (∀ b ∈ l, T x b) → (∀ b ∈ l, ¬ r x b → T b x) →
      (l.orderedInsert r x).Pairwise T
  | [], _, _, _ => List.pairwise_singleton T x
  | b :: t, h, hx, hrT => by
    rw [List.orderedInsert]
    by_cases hrb : r x b
    · rw [if_pos hrb]
      exact List.Pairwise.cons hx h
    · rw [if_neg hrb]
      rcases List.pairwise_cons.mp h with ⟨hbt, ht⟩
      refine List.pairwise_cons.mpr ⟨?_, ?_⟩
      · intro z hz
        rcases (List.mem_orderedInsert r).mp hz with rfl | hz'
        · exact hrT b (by simp) hrb
        · exact hbt z hz'
      · exact pairwise_orderedInsert_ties x ht (fun c hc => hx c (by simp [hc]))
          (fun c hc hrc => hrT c (by simp [hc]) hrc)

/-- Stability of `insertionSort` for pairwise relations: if `T` already holds
pairwise and `T b a` holds whenever the sort may move `b` in front of `a`
(`¬ r a b`), then `T` still holds pairwise after sorting.  Instantiated with
`T a b := key a = key b → Q a b` this is exactly "equal-key elements keep their
relative order". -/
theorem pairwise_insertionSort_ties {α : Type} (r : α → α → Prop) [DecidableRel r]
    (T : α → α → Prop) (hrT : ∀ a b, ¬ r a b → T b a) :
    ∀ {l : List α}, l.Pairwise T → (l.insertionSort r).Pairwise T
  | [], _ => by simp [List.insertionSort]
  | x :: t, h => by
    rw [List.insertionSort]
    rcases List.pairwise_cons.mp h with ⟨hxt, ht⟩
    exact pairwise_orderedInsert_ties x (pairwise_insertionSort_ties r T hrT ht)
      (fun b hb => hxt b ((List.mem_insertionSort r).mp hb))
      (fun b hb hrb => hrT x b hrb)

instance : IsTrans CandidateRow candidateRowGE :=
  ⟨by
    intro a b c hab hbc
    unfold candidateRowGE at *
    rcases hab with h1 | ⟨e1, le1⟩ <;> rcases hbc with h2 | ⟨e2, le2⟩
    · exact Or.inl (h2.trans h1)
    · exact Or.inl (e2 ▸ h1)
    · exact Or.inl (e1 ▸ h2)
    · exact Or.inr ⟨e2.trans e1, le2.trans le1⟩⟩

instance : IsTotal CandidateRow candidateRowGE :=
  ⟨by
    intro a b
    unfold candidateRowGE
    rcases lt_trichotomy a.avg_rating b.avg_rating with h | h | h
    · exact Or.inr (Or.inl h)
    · rcases Nat.le_total b.review_count a.review_count with hc | hc
      · exact Or.inl (Or.inr ⟨h.symm, hc⟩)
      · exact Or.inr (Or.inr ⟨h, hc⟩)
    · exact Or.inl (Or.inl h)⟩

instance : IsTrans PopRow popRowGE :=
  ⟨by
    intro a b c hab hbc
    unfold popRowGE at *
    rcases hab with h1 | ⟨e1, h1⟩ <;> rcases hbc with h2 | ⟨e2, h2⟩
    · exact Or.inl (h2.trans h1)
    · exact Or.inl (e2 ▸ h1)
    · exact Or.inl (e1 ▸ h2)
    · refine Or.inr ⟨e2.trans e1, ?_⟩
      rcases h1 with h1 | ⟨f1, g1⟩ <;> rcases h2 with h2 | ⟨f2, g2⟩
      · exact Or.inl (h2.trans h1)
      · exact Or.inl (f2 ▸ h1)
      · exact Or.inl (f1 ▸ h2)
      · exact Or.inr ⟨f2.trans f1, g2.trans g1⟩⟩

instance : IsTotal PopRow popRowGE :=
  ⟨by
    intro a b
    unfold popRowGE
    rcases lt_trichotomy a.avg_rating b.avg_rating with h | h | h
    · exact Or.inr (Or.inl h)
    · rcases Nat.lt_trichotomy a.review_count b.review_count with hc | hc | hc
      · exact Or.inr (Or.inr ⟨h, Or.inl hc⟩)
      · rcases Nat.le_total b.favorite_count a.favorite_count with hf | hf
        · exact Or.inl (Or.inr ⟨h.symm, Or.inr ⟨hc.symm, hf⟩⟩)
        · exact Or.inr (Or.inr ⟨h, Or.inr ⟨hc, hf⟩⟩)
      · exact Or.inl (Or.inr ⟨h.symm, Or.inl hc⟩)
    · exact Or.inl (Or.inl h)⟩

instance : IsTrans RecommendationItem itemScoreGE :=
  ⟨fun _ _ _ hab hbc => le_trans hbc hab⟩

instance : IsTotal RecommendationItem itemScoreGE :=
  ⟨fun a b => (le_total b.score a.score).imp id id⟩

instance : IsTrans (Nat × Nat) genreCountGE :=
  ⟨fun _ _ _ hab hbc => le_trans hbc hab⟩

instance : IsTotal (Nat × Nat) genreCountGE :=
  ⟨fun a b => (le_total b.2 a.2).imp id id⟩

theorem applyLimit_sublist (o : Option Nat) (l : List α) :
    List.Sublist (applyLimit o l) l := by
  cases o with
  | none => exact List.Sublist.refl l
  | some n => exact List.take_sublist n l

theorem mem_applyLimit {o : Option Nat} {l : List α} {a : α}
    (h : a ∈ applyLimit o l) : a ∈ l :=
  (applyLimit_sublist o l).subset h

theorem applyLimit_pairwise {R : α → α → Prop} {l : List α} (o : Option Nat)
    (h : l.Pairwise R) : (applyLimit o l).Pairwise R :=
  h.sublist (applyLimit_sublist o l)

theorem length_applyLimit_le (n : Nat) (l : List α) :
    (applyLimit (some n) l).length ≤ n := by
  simp [applyLimit]

theorem ratFloor_eq_floor (q : ℚ) : (Rat.floor q : ℤ) = ⌊q⌋ := by
  rw [Rat.floor_def', Rat.floor_def]

theorem roundHalfEven_eq (q : ℚ) :
    roundHalfEven q =
      if q - ⌊q⌋ < 1 / 2 then ⌊q⌋
      else if 1 / 2 < q - ⌊q⌋ then ⌊q⌋ + 1
      else if ⌊q⌋ % 2 = 0 then ⌊q⌋ else ⌊q⌋ + 1 := by
  simp only [roundHalfEven, ratFloor_eq_floor]

theorem roundHalfEven_mono {a b : ℚ} (h : a ≤ b) : roundHalfEven a ≤ roundHalfEven b := by
  have hf : ⌊a⌋ ≤ ⌊b⌋ := Int.floor_mono h
  rcases eq_or_lt_of_le hf with he | hlt
  · rw [roundHalfEven_eq, roundHalfEven_eq, ← he]
    have hab : a - ⌊a⌋ ≤ b - ⌊a⌋ := by linarith
    split_ifs <;> first
      | omega
      | (exfalso; linarith)
  · have h1 : roundHalfEven a ≤ ⌊a⌋ + 1 := by
      rw [roundHalfEven_eq]; split_ifs <;> omega
    have h2 : ⌊b⌋ ≤ roundHalfEven b := by
      rw [roundHalfEven_eq]; split_ifs <;> omega
    omega

theorem round3_mono {a b : ℚ} (h : a ≤ b) : round3 a ≤ round3 b := by
  unfold round3
  have := roundHalfEven_mono (mul_le_mul_of_nonneg_right h (by norm_num : (0:ℚ) ≤ 1000))
  have hc : (roundHalfEven (a * 1000) : ℚ) ≤ (roundHalfEven (b * 1000) : ℚ) := by
    exact_mod_cast this
  linarith

/-! ### Unfolding and membership lemmas for the three strategies -/

theorem passesExclusion_spec {user_books : List Nat} {b : Book}
    (h : passesExclusion user_books b = true) : b.id ∉ user_books := by
  unfold passesExclusion at h
  cases he : user_books.isEmpty with
  | true =>
    have : user_books = [] := by
      cases user_books with
      | nil => rfl
      | cons a l => simp [List.isEmpty] at he
    subst this
    simp
  | false =>
    rw [he] at h
    simp at h
    exact h

theorem excludedBooks_of_flag (db : DB) (uid : Nat) {params : RecommendationParameters}
    (h : params.exclude_user_books = some true) :
    excludedBooks db uid params = userBookIds db uid := by
  unfold excludedBooks truthyB
  rw [h]
  rfl

/-- The no-fault fallback strategy, unfolded. -/
theorem get_fallback_recommendations_eq (db : DB) (uid : Nat)
    (params : RecommendationParameters) (rec_type : String) :
    get_fallback_recommendations db uid params rec_type =
      match recommendationTypeOfString rec_type with
      | some t => (fallbackQueryRows db uid params).map (mkFallbackItem t)
      | none => [] := rfl

/-- The no-fault popularity strategy, unfolded. -/
theorem get_popularity_based_recommendations_eq (db : DB) (uid : Nat)
    (params : RecommendationParameters) :
    get_popularity_based_recommendations db uid params =
      List.insertionSort itemScoreGE ((popQueryRows db uid params).map mkPopItem) := rfl

/-- The no-fault content strategy on a user with at least one affinity genre. -/
theorem get_content_based_recommendations_eq_main {db : DB} {uid : Nat}
    (params : RecommendationParameters) (hne : (userFavoriteGenres db uid).isEmpty = false) :
    get_content_based_recommendations db uid params =
      List.insertionSort itemScoreGE
        ((contentQueryRows db uid params (topGenreIds db uid)).map
          (mkContentItem db (topGenreIds db uid))) := by
  unfold get_content_based_recommendations get_content_based_recommendationsE
  simp [hne]

/-- The no-fault content strategy on a user with no affinity genres routes to
the fallback strategy. -/
theorem get_content_based_recommendations_eq_fb {db : DB} {uid : Nat}
    (params : RecommendationParameters) (he : (userFavoriteGenres db uid).isEmpty = true) :
    get_content_based_recommendations db uid params =
      get_fallback_recommendations db uid params "content_based" := by
  unfold get_content_based_recommendations get_content_based_recommendationsE
  simp [he]

theorem mem_fallbackQueryRows {db : DB} {uid : Nat} {params : RecommendationParameters}
    {row : CandidateRow} (h : row ∈ fallbackQueryRows db uid params) :
    ∃ b ∈ db.books, fallbackKeeps db (excludedBooks db uid params) b = true ∧
      row = fallbackRowOf db b := by
  unfold fallbackQueryRows at h
  have h1 := mem_applyLimit h
  rw [List.mem_insertionSort] at h1
  rcases List.mem_map.mp h1 with ⟨b, hb, rfl⟩
  rcases List.mem_filter.mp hb with ⟨hmem, hkeep⟩
  exact ⟨b, hmem, hkeep, rfl⟩

theorem mem_contentQueryRows {db : DB} {uid : Nat} {params : RecommendationParameters}
    {tops : List Nat} {row : CandidateRow} (h : row ∈ contentQueryRows db uid params tops) :
    ∃ b ∈ db.books,
      contentKeeps db tops (excludedBooks db uid params) params.min_rating b = true ∧
      row = contentRowOf db tops b := by
  unfold contentQueryRows at h
  have h1 := mem_applyLimit h
  rw [List.mem_insertionSort] at h1
  rcases List.mem_map.mp h1 with ⟨b, hb, rfl⟩
  rcases List.mem_filter.mp hb with ⟨hmem, hkeep⟩
  exact ⟨b, hmem, hkeep, rfl⟩

theorem mem_popQueryRows {db : DB} {uid : Nat} {params : RecommendationParameters}
    {row : PopRow} (h : row ∈ popQueryRows db uid params) :
    ∃ b ∈ db.books,
      popKeeps db params (excludedBooks db uid params) b = true ∧
      row = popRowOf db params b := by
  unfold popQueryRows at h
  have h1 := mem_applyLimit h
  rw [List.mem_insertionSort] at h1
  rcases List.mem_map.mp h1 with ⟨b, hb, rfl⟩
  rcases List.mem_filter.mp hb with ⟨hmem, hkeep⟩
  exact ⟨b, hmem, hkeep, rfl⟩

/-- Every fallback item comes from a kept candidate book, carries the requested
strategy tag, and the tag string resolved to a valid enum member. -/
theorem mem_fallback_elim {db : DB} {uid : Nat} {params : RecommendationParameters}
    {rec_type : String} {it : RecommendationItem}
    (h : it ∈ get_fallback_recommendations db uid params rec_type) :
    ∃ t, recommendationTypeOfString rec_type = some t ∧ it.recommendation_type = t ∧
      ∃ b ∈ db.books, fallbackKeeps db (excludedBooks db uid params) b = true ∧
        it.book = b := by
  rw [get_fallback_recommendations_eq] at h
  cases hrt : recommendationTypeOfString rec_type with
  | none => rw [hrt] at h; simp at h
  | some t =>
    rw [hrt] at h
    rcases List.mem_map.mp h with ⟨row, hrow, rfl⟩
    rcases mem_fallbackQueryRows hrow with ⟨b, hbmem, hkeep, rfl⟩
    exact ⟨t, rfl, rfl, b, hbmem, hkeep, rfl⟩

/-- Every popularity item (no-fault path) comes from a kept candidate book and
is tagged `popularity_based`. -/
theorem mem_pop_elim {db : DB} {uid : Nat} {params : RecommendationParameters}
    {it : RecommendationItem}
    (h : it ∈ get_popularity_based_recommendations db uid params) :
    it.recommendation_type = RecommendationType.popularity_based ∧
      ∃ b ∈ db.books, popKeeps db params (excludedBooks db uid params) b = true ∧
        it.book = b := by
  rw [get_popularity_based_recommendations_eq] at h
  rw [List.mem_insertionSort] at h
  rcases List.mem_map.mp h with ⟨row, hrow, rfl⟩
  rcases mem_popQueryRows hrow with ⟨b, hbmem, hkeep, rfl⟩
  exact ⟨rfl, b, hbmem, hkeep, rfl⟩

/-- Every content item of the genre-affinity path comes from a kept candidate
book and is tagged `content_based`. -/
theorem mem_content_elim {db : DB} {uid : Nat} {params : RecommendationParameters}
    {it : RecommendationItem} (hne : (userFavoriteGenres db uid).isEmpty = false)
    (h : it ∈ get_content_based_recommendations db uid params) :
    it.recommendation_type = RecommendationType.content_based ∧
      ∃ b ∈ db.books,
        contentKeeps db (topGenreIds db uid) (excludedBooks db uid params)
          params.min_rating b = true ∧ it.book = b := by
  rw [get_content_based_recommendations_eq_main params hne] at h
  rw [List.mem_insertionSort] at h
  rcases List.mem_map.mp h with ⟨row, hrow, rfl⟩
  rcases mem_contentQueryRows hrow with ⟨b, hbmem, hkeep, rfl⟩
  exact ⟨rfl, b, hbmem, hkeep, rfl⟩

theorem band_left {a b : Bool} (h : (a && b) = true) : a = true := by
  cases a <;> cases b <;> simp_all

theorem band_right {a b : Bool} (h : (a && b) = true) : b = true := by
  cases a <;> cases b <;> simp_all

theorem fallback_length_le {db : DB} {uid : Nat} {params : RecommendationParameters}
    {L : Nat} (rec_type : String) (hL : params.limit = some L) :
    (get_fallback_recommendations db uid params rec_type).length ≤ L := by
  rw [get_fallback_recommendations_eq]
  cases recommendationTypeOfString rec_type with
  | none => simp
  | some t =>
    simp only [List.length_map]
    unfold fallbackQueryRows
    rw [hL]
    exact length_applyLimit_le L _

theorem pop_length_le {db : DB} {uid : Nat} {params : RecommendationParameters}
    {L : Nat} (hL : params.limit = some L) :
    (get_popularity_based_recommendations db uid params).length ≤ L := by
  rw [get_popularity_based_recommendations_eq]
  rw [List.length_insertionSort, List.length_map]
  unfold popQueryRows
  rw [hL]
  exact length_applyLimit_le L _

theorem content_length_le {db : DB} {uid : Nat} {params : RecommendationParameters}
    {L : Nat} (hL : params.limit = some L) :
    (get_content_based_recommendations db uid params).length ≤ L := by
  cases he : (userFavoriteGenres db uid).isEmpty with
  | true =>
    rw [get_content_based_recommendations_eq_fb params he]
    exact fallback_length_le "content_based" hL
  | false =>
    rw [get_content_based_recommendations_eq_main params he]
    rw [List.length_insertionSort, List.length_map]
    unfold contentQueryRows
    rw [hL]
    exact length_applyLimit_le L _

/-- C1: with the exclusion flag enabled, no item returned by any of the three
strategies refers to a book in the union of the user's favorited and reviewed
book identifiers. -/
theorem C1_exclusion_invariant (db : DB) (uid : Nat) (params : RecommendationParameters)
    (hex : params.exclude_user_books = some true) :
    (∀ it ∈ get_content_based_recommendations db uid params,
      it.book.id ∉ userBookIds db uid) ∧
    (∀ it ∈ get_popularity_based_recommendations db uid params,
      it.book.id ∉ userBookIds db uid) ∧
    (∀ rec_type, ∀ it ∈ get_fallback_recommendations db uid params rec_type,
      it.book.id ∉ userBookIds db uid) := by
  have hub := excludedBooks_of_flag db uid hex
  have hfb : ∀ rec_type, ∀ it ∈ get_fallback_recommendations db uid params rec_type,
      it.book.id ∉ userBookIds db uid := by
    intro rt it hit
    rcases mem_fallback_elim hit with ⟨t, _, _, b, _, hkeep, hbook⟩
    have hpe := band_right hkeep
    have := passesExclusion_spec hpe
    rw [hub] at this
    rw [hbook]
    exact this
  refine ⟨?_, ?_, hfb⟩
  · intro it hit
    cases he : (userFavoriteGenres db uid).isEmpty with
    | true =>
      rw [get_content_based_recommendations_eq_fb params he] at hit
      exact hfb "content_based" it hit
    | false =>
      rcases mem_content_elim he hit with ⟨_, b, _, hkeep, hbook⟩
      have hpe := band_right hkeep
      have := passesExclusion_spec hpe
      rw [hub] at this
      rw [hbook]
      exact this
  · intro it hit
    rcases mem_pop_elim hit with ⟨_, b, _, hkeep, hbook⟩
    have hpe := band_right (band_left hkeep)
    have := passesExclusion_spec hpe
    rw [hub] at this
    rw [hbook]
    exact this

/-- C1 witness: a concrete state where user 1 favorited book 1 and reviewed
book 2; the popularity output is exactly book 3 and the invariant holds. -/
theorem C1_witness :
    pDefault.exclude_user_books = some true ∧
    (get_popularity_based_recommendations dbExcl 1 pDefault).map (fun it => it.book.id)
      = [3] ∧
    (get_popularity_based_recommendations dbExcl 1 pDefault).all
      (fun it => decide (it.book.id ∉ userBookIds dbExcl 1)) = true :=
  ⟨rfl, by with_unfolding_all decide, by
    refine List.all_eq_true.mpr ?_
    intro it hit
    exact decide_eq_true ((C1_exclusion_invariant dbExcl 1 pDefault rfl).2.1 it hit)⟩

/-- C2: with `limit = L` (`1 ≤ L ≤ 50`), each strategy returns at most `L`
items. -/
theorem C2_length_le (db : DB) (uid : Nat) (params : RecommendationParameters)
    (L : Nat) (hL : params.limit = some L) (_h1 : 1 ≤ L) (_h50 : L ≤ 50) :
    (get_content_based_recommendations db uid params).length ≤ L ∧
    (get_popularity_based_recommendations db uid params).length ≤ L ∧
    ∀ rec_type, (get_fallback_recommendations db uid params rec_type).length ≤ L :=
  ⟨content_length_le hL, pop_length_le hL, fun rt => fallback_length_le rt hL⟩

/-- C2 witness at `limit = 10` on a concrete catalog. -/
theorem C2_witness :
    (get_content_based_recommendations dbExcl 1 pDefault).length = 1 ∧
    (get_content_based_recommendations dbExcl 1 pDefault).length ≤ 10 ∧
    (get_popularity_based_recommendations dbExcl 1 pDefault).length ≤ 10 ∧
    (get_fallback_recommendations dbExcl 1 pDefault "popularity_based").length ≤ 10 :=
  ⟨by with_unfolding_all decide,
    (C2_length_le dbExcl 1 pDefault 10 rfl (by norm_num) (by norm_num)).1,
    (C2_length_le dbExcl 1 pDefault 10 rfl (by norm_num) (by norm_num)).2.1,
    (C2_length_le dbExcl 1 pDefault 10 rfl (by norm_num) (by norm_num)).2.2
      "popularity_based"⟩

/-- C10: `get_content_based_recommendations` never reads `params.genres` — two
parameter objects differing only in the genre allow-list give the same list. -/
theorem C10_content_ignores_genres (db : DB) (uid : Nat) (l : Option Nat)
    (e : Option Bool) (m : Option ℚ) (g g' : Option (List Nat)) :
    get_content_based_recommendations db uid ⟨l, e, m, g⟩ =
      get_content_based_recommendations db uid ⟨l, e, m, g'⟩ := rfl

/-- C6: the fallback strategy returns `[]` rather than raising whenever any
fault occurs inside its `try` block — a fault of the exclusion query (which
only runs when the exclusion flag is truthy), a fault of the candidate query,
or a `ValueError` from an unknown strategy tag. -/
theorem C6_fallback_never_raises (db : DB) (uid : Nat) (params : RecommendationParameters)
    (rec_type : String) (fl : FallbackFaults)
    (h : (fl.exclusion_fault = true ∧ truthyB params.exclude_user_books = true) ∨
      fl.candidate_fault = true ∨ recommendationTypeOfString rec_type = none) :
    get_fallback_recommendationsE db uid params rec_type fl = [] := by
  unfold get_fallback_recommendationsE
  rcases h with ⟨hf, ht⟩ | hc | hn
  · rw [if_pos (by rw [hf, ht]; rfl)]
  · split_ifs with h1
    · rfl
    · rfl
  · split_ifs with h1 h2
    · rfl
    · rfl
    · rw [hn]

/-- C6 witness: a candidate-query fault on a state whose no-fault run is
nonempty, and an unknown tag on the no-fault path. -/
theorem C6_witness :
    get_fallback_recommendationsE dbExcl 1 pDefault "content_based" ⟨false, true⟩ = [] ∧
    get_fallback_recommendationsE dbExcl 1 pDefault "bogus" ⟨false, false⟩ = [] ∧
    get_fallback_recommendations dbExcl 1 pDefault "content_based" ≠ [] :=
  ⟨C6_fallback_never_raises dbExcl 1 pDefault "content_based" ⟨false, true⟩
      (Or.inr (Or.inl rfl)),
    C6_fallback_never_raises dbExcl 1 pDefault "bogus" ⟨false, false⟩
      (Or.inr (Or.inr rfl)),
    by with_unfolding_all decide⟩

/-- C7: whenever the affinity set is empty or any exception occurs during
content-based scoring, the content strategy returns exactly the fallback
strategy's result, bounded by the limit, every item tagged `content_based`. -/
theorem C7_content_falls_back (db : DB) (uid : Nat) (params : RecommendationParameters)
    (fl : ContentFaults)
    (h : userFavoriteGenres db uid = [] ∨ fl.affinity_fault = true ∨
      (fl.exclusion_fault = true ∧ truthyB params.exclude_user_books = true) ∨
      fl.candidate_fault = true) :
    get_content_based_recommendationsE db uid params fl =
      get_fallback_recommendations db uid params "content_based" ∧
    (∀ L, params.limit = some L →
      (get_content_based_recommendationsE db uid params fl).length ≤ L) ∧
    (∀ it ∈ get_content_based_recommendationsE db uid params fl,
      it.recommendation_type = RecommendationType.content_based) := by
  have heq : get_content_based_recommendationsE db uid params fl =
      get_fallback_recommendations db uid params "content_based" := by
    unfold get_content_based_recommendationsE
    split_ifs with h1 h2 h3 h4
    · rfl
    · rfl
    · rfl
    · rfl
    · exfalso
      rcases h with he | ha | ⟨hf, ht⟩ | hc
      · exact h2 (by rw [he]; rfl)
      · exact h1 ha
      · exact h3 (by rw [hf, ht]; rfl)
      · exact h4 hc
  refine ⟨heq, ?_, ?_⟩
  · intro L hL
    rw [heq]
    exact fallback_length_le "content_based" hL
  · intro it hit
    rw [heq] at hit
    rcases mem_fallback_elim hit with ⟨t, hts, htag, _⟩
    have : t = RecommendationType.content_based := by
      unfold recommendationTypeOfString at hts
      exact (Option.some.injEq _ _).mp hts.symm ▸ rfl
    rw [htag, this]

/-- C7 witness: user 1 has no favorites in `dbTie`, so the content strategy
returns the (nonempty) fallback list, tagged `content_based`, within limit 5. -/
theorem C7_witness :
    userFavoriteGenres dbTie 1 = [] ∧
    get_content_based_recommendationsE dbTie 1 pLimit5 ⟨false, false, false⟩ =
      get_fallback_recommendations dbTie 1 pLimit5 "content_based" ∧
    (get_content_based_recommendationsE dbTie 1 pLimit5 ⟨false, false, false⟩).length ≤ 5 ∧
    (get_content_based_recommendationsE dbTie 1 pLimit5 ⟨false, false, false⟩).all
      (fun it => decide (it.recommendation_type = RecommendationType.content_based))
      = true ∧
    (get_content_based_recommendationsE dbTie 1 pLimit5 ⟨false, false, false⟩).length = 2 := by
  have h := C7_content_falls_back dbTie 1 pLimit5 ⟨false, false, false⟩
    (Or.inl (by with_unfolding_all decide))
  refine ⟨by with_unfolding_all decide, h.1, h.2.1 5 rfl, ?_, by with_unfolding_all decide⟩
  refine List.all_eq_true.mpr ?_
  intro it hit
  exact decide_eq_true (h.2.2 it hit)

/-! ### Ordering of the returned lists (claim C5) -/

theorem candidateRowGE_avg_le {u v : CandidateRow} (h : candidateRowGE u v) :
    v.avg_rating ≤ u.avg_rating := by
  rcases h with h | ⟨e, _⟩
  · exact h.le
  · exact e.le

theorem fallbackQueryRows_pairwise (db : DB) (uid : Nat)
    (params : RecommendationParameters) :
    (fallbackQueryRows db uid params).Pairwise candidateRowGE := by
  unfold fallbackQueryRows
  exact applyLimit_pairwise _ (List.sorted_insertionSort _ _)

theorem contentQueryRows_pairwise (db : DB) (uid : Nat)
    (params : RecommendationParameters) (tops : List Nat) :
    (contentQueryRows db uid params tops).Pairwise candidateRowGE := by
  unfold contentQueryRows
  exact applyLimit_pairwise _ (List.sorted_insertionSort _ _)

theorem popQueryRows_pairwise (db : DB) (uid : Nat) (params : RecommendationParameters) :
    (popQueryRows db uid params).Pairwise popRowGE := by
  unfold popQueryRows
  exact applyLimit_pairwise _ (List.sorted_insertionSort _ _)

theorem fallback_items_pairwise (db : DB) (uid : Nat) (params : RecommendationParameters)
    (t : RecommendationType) :
    ((fallbackQueryRows db uid params).map (mkFallbackItem t)).Pairwise
      (fallbackItemGE db) := by
  rw [List.pairwise_map]
  refine (fallbackQueryRows_pairwise db uid params).imp_of_mem ?_
  intro a b ha hb hab
  rcases mem_fallbackQueryRows ha with ⟨ba, _, _, rfl⟩
  rcases mem_fallbackQueryRows hb with ⟨bb, _, _, rfl⟩
  exact hab

theorem content_items_pairwise (db : DB) (uid : Nat) (params : RecommendationParameters)
    (tops : List Nat) :
    ((contentQueryRows db uid params tops).map (mkContentItem db tops)).Pairwise
      (contentItemGE db tops) := by
  rw [List.pairwise_map]
  refine (contentQueryRows_pairwise db uid params tops).imp_of_mem ?_
  intro a b ha hb hab
  rcases mem_contentQueryRows ha with ⟨ba, _, _, rfl⟩
  rcases mem_contentQueryRows hb with ⟨bb, _, _, rfl⟩
  exact hab

theorem pop_items_pairwise (db : DB) (uid : Nat) (params : RecommendationParameters) :
    ((popQueryRows db uid params).map mkPopItem).Pairwise (popItemGE db params) := by
  rw [List.pairwise_map]
  refine (popQueryRows_pairwise db uid params).imp_of_mem ?_
  intro a b ha hb hab
  rcases mem_popQueryRows ha with ⟨ba, _, _, rfl⟩
  rcases mem_popQueryRows hb with ⟨bb, _, _, rfl⟩
  exact hab

theorem mkFallbackItem_book (t : RecommendationType) (row : CandidateRow) :
    (mkFallbackItem t row).book = row.book := rfl

theorem fallbackRowOf_book (db : DB) (b : Book) : (fallbackRowOf db b).book = b := rfl

theorem mkFallbackItem_score (t : RecommendationType) (row : CandidateRow) :
    (mkFallbackItem t row).score = round3 (row.avg_rating / 5) := by
  unfold mkFallbackItem
  by_cases h : row.avg_rating = 0
  · simp [h]
  · simp [h]

/-- C5 (amended): every strategy's output is sorted descending by its score;
among items with equal score the relative order follows the candidate query's
full `ORDER BY` key — mean rating first, then the query's review-count
aggregate (then its favorite-count aggregate for the popularity strategy) —
and, the engine being a pure function of the database snapshot, repeated calls
with unchanged data return the identical list.  The content strategy's
affinity-less branch returns the fallback strategy's list. -/
theorem C5_sorted_ties_deterministic (db : DB) (uid : Nat)
    (params : RecommendationParameters) (rec_type : String) :
    ((get_fallback_recommendations db uid params rec_type).Pairwise
      (fun x y => y.score ≤ x.score ∧ (x.score = y.score → fallbackItemGE db x y))) ∧
    ((get_popularity_based_recommendations db uid params).Pairwise
      (fun x y => y.score ≤ x.score ∧ (x.score = y.score → popItemGE db params x y))) ∧
    ((userFavoriteGenres db uid).isEmpty = false →
      (get_content_based_recommendations db uid params).Pairwise
        (fun x y => y.score ≤ x.score ∧
          (x.score = y.score → contentItemGE db (topGenreIds db uid) x y))) ∧
    ((userFavoriteGenres db uid).isEmpty = true →
      get_content_based_recommendations db uid params =
        get_fallback_recommendations db uid params "content_based") ∧
    (get_fallback_recommendations db uid params rec_type =
      get_fallback_recommendations db uid params rec_type ∧
    get_popularity_based_recommendations db uid params =
      get_popularity_based_recommendations db uid params ∧
    get_content_based_recommendations db uid params =
      get_content_based_recommendations db uid params) := by
  refine ⟨?_, ?_, ?_, fun he => get_content_based_recommendations_eq_fb params he,
    rfl, rfl, rfl⟩
  · rw [get_fallback_recommendations_eq]
    cases hrt : recommendationTypeOfString rec_type with
    | none => simp
    | some t =>
      refine (fallback_items_pairwise db uid params t).imp_of_mem ?_
      intro x y hx hy hge
      refine ⟨?_, fun _ => hge⟩
      rcases List.mem_map.mp hx with ⟨rx, hrx, rfl⟩
      rcases List.mem_map.mp hy with ⟨ry, hry, rfl⟩
      rcases mem_fallbackQueryRows hrx with ⟨bx, _, _, rfl⟩
      rcases mem_fallbackQueryRows hry with ⟨by', _, _, rfl⟩
      rw [mkFallbackItem_score, mkFallbackItem_score]
      have havg := candidateRowGE_avg_le hge
      simp only [mkFallbackItem_book, fallbackRowOf_book] at havg
      exact round3_mono (by linarith)
  · rw [get_popularity_based_recommendations_eq]
    have hA : (List.insertionSort itemScoreGE
        ((popQueryRows db uid params).map mkPopItem)).Pairwise itemScoreGE :=
      List.sorted_insertionSort itemScoreGE _
    have hB := pairwise_insertionSort_ties itemScoreGE
      (fun x y => x.score = y.score → popItemGE db params x y)
      (fun a b hn heq => absurd (le_of_eq heq) hn)
      ((pop_items_pairwise db uid params).imp (fun hge => fun _ => hge))
    exact (hA.and hB).imp (fun h => ⟨h.1, h.2⟩)
  · intro hne
    rw [get_content_based_recommendations_eq_main params hne]
    have hA : (List.insertionSort itemScoreGE
        ((contentQueryRows db uid params (topGenreIds db uid)).map
          (mkContentItem db (topGenreIds db uid)))).Pairwise itemScoreGE :=
      List.sorted_insertionSort itemScoreGE _
    have hB := pairwise_insertionSort_ties itemScoreGE
      (fun x y => x.score = y.score → contentItemGE db (topGenreIds db uid) x y)
      (fun a b hn heq => absurd (le_of_eq heq) hn)
      ((content_items_pairwise db uid params (topGenreIds db uid)).imp
        (fun hge => fun _ => hge))
    exact (hA.and hB).imp (fun h => ⟨h.1, h.2⟩)

/-- C5 counterexample to the claim as stated: in `dbTie` the fallback list has
two items with equal rounded score `4/5`, yet the first has strictly fewer
reviews than the second (and equal favorite counts), because equal-score ties
follow the query order, whose first key is the mean rating (4.002 vs 4.0) —
not the review count. -/
theorem C5_counterexample :
    (get_fallback_recommendations dbTie 1 pDefault "content_based").map
        (fun it => (it.book.id, it.score)) = [(1, 4 / 5), (2, 4 / 5)] ∧
    reviewCount dbTie 1 < reviewCount dbTie 2 ∧
    favoriteCount dbTie 1 = favoriteCount dbTie 2 := by
  with_unfolding_all decide

/-- C5 witness: the amended theorem applied at concrete states — the no-favorite
user's content request equals the fallback output, and the fallback output is
pairwise ordered as stated. -/
theorem C5_witness :
    (get_content_based_recommendations dbTie 1 pDefault =
      get_fallback_recommendations dbTie 1 pDefault "content_based") ∧
    ((get_fallback_recommendations dbTie 1 pDefault "content_based").Pairwise
      (fun x y => y.score ≤ x.score ∧ (x.score = y.score → fallbackItemGE dbTie x y))) :=
  ⟨(C5_sorted_ties_deterministic dbTie 1 pDefault "content_based").2.2.2.1
      (by with_unfolding_all decide),
    (C5_sorted_ties_deterministic dbTie 1 pDefault "content_based").1⟩

/-! ### Feedback recording and stats aggregation (claim C8) -/

theorem groupTotal_nil (t : RecommendationType) : groupTotal [] t = 0 := rfl

theorem groupTotal_cons_eq {e : RecommendationType × Nat × Nat × Nat}
    {rest : List (RecommendationType × Nat × Nat × Nat)} {t : RecommendationType}
    (h : e.1 = t) : groupTotal (e :: rest) t = e.2.1 := by
  simp [groupTotal, List.find?_cons, h]

theorem groupTotal_cons_ne {e : RecommendationType × Nat × Nat × Nat}
    {rest : List (RecommendationType × Nat × Nat × Nat)} {t : RecommendationType}
    (h : ¬ e.1 = t) : groupTotal (e :: rest) t = groupTotal rest t := by
  simp [groupTotal, List.find?_cons, h]

theorem groupTotal_eq_zero {t : RecommendationType} :
    ∀ {acc : List (RecommendationType × Nat × Nat × Nat)},
      (∀ e ∈ acc, ¬ e.1 = t) → groupTotal acc t = 0
  | [], _ => rfl
  | e :: rest, h => by
    rw [groupTotal_cons_ne (h e (by simp))]
    exact groupTotal_eq_zero (fun e' he' => h e' (by simp [he']))

theorem groupTotal_append_of_absent {t : RecommendationType}
    (x : RecommendationType × Nat × Nat × Nat) :
    ∀ {acc : List (RecommendationType × Nat × Nat × Nat)},
      (∀ e ∈ acc, ¬ e.1 = t) → groupTotal (acc ++ [x]) t = groupTotal [x] t
  | [], _ => rfl
  | e :: rest, h => by
    rw [List.cons_append, groupTotal_cons_ne (h e (by simp))]
    exact groupTotal_append_of_absent x (fun e' he' => h e' (by simp [he']))

theorem groupTotal_append_ne {t : RecommendationType}
    {x : RecommendationType × Nat × Nat × Nat} (hx : ¬ x.1 = t) :
    ∀ (acc : List (RecommendationType × Nat × Nat × Nat)),
      groupTotal (acc ++ [x]) t = groupTotal acc t
  | [] => by rw [List.nil_append, groupTotal_cons_ne hx]
  | e :: rest => by
    by_cases hke : e.1 = t
    · rw [List.cons_append, groupTotal_cons_eq hke, groupTotal_cons_eq hke]
    · rw [List.cons_append, groupTotal_cons_ne hke, groupTotal_cons_ne hke]
      exact groupTotal_append_ne hx rest

theorem bumpFeedback_fst (fb : RecommendationFeedback)
    (e : RecommendationType × Nat × Nat × Nat) : (bumpFeedback fb e).1 = e.1 := by
  unfold bumpFeedback
  split
  · rfl
  · rfl

theorem bumpFeedback_of_ne {fb : RecommendationFeedback}
    {e : RecommendationType × Nat × Nat × Nat}
    (h : ¬ e.1 = fb.recommendation_type) : bumpFeedback fb e = e := if_neg h

theorem bumpFeedback_total_of_eq {fb : RecommendationFeedback}
    {e : RecommendationType × Nat × Nat × Nat}
    (h : e.1 = fb.recommendation_type) : (bumpFeedback fb e).2.1 = e.2.1 + 1 := by
  unfold bumpFeedback
  rw [if_pos h]

theorem groupTotal_map_bump_ne (fb : RecommendationFeedback) {t : RecommendationType}
    (hft : ¬ fb.recommendation_type = t) :
    ∀ acc, groupTotal (acc.map (bumpFeedback fb)) t = groupTotal acc t
  | [] => rfl
  | e :: rest => by
    by_cases hke : e.1 = t
    · have h1 : (bumpFeedback fb e).1 = t := (bumpFeedback_fst fb e).trans hke
      rw [List.map_cons, groupTotal_cons_eq h1, groupTotal_cons_eq hke,
        bumpFeedback_of_ne (fun h => hft (h ▸ hke))]
    · have h1 : ¬ (bumpFeedback fb e).1 = t := by rw [bumpFeedback_fst]; exact hke
      rw [List.map_cons, groupTotal_cons_ne h1, groupTotal_cons_ne hke]
      exact groupTotal_map_bump_ne fb hft rest

theorem groupTotal_map_bump_eq (fb : RecommendationFeedback) {t : RecommendationType}
    (hft : fb.recommendation_type = t) :
    ∀ acc, (∃ e ∈ acc, e.1 = t) →
      groupTotal (acc.map (bumpFeedback fb)) t = groupTotal acc t + 1
  | [], hex => by rcases hex with ⟨x, hx, _⟩; exact absurd hx (List.not_mem_nil x)
  | e :: rest, hex => by
    by_cases hke : e.1 = t
    · have h1 : (bumpFeedback fb e).1 = t := (bumpFeedback_fst fb e).trans hke
      rw [List.map_cons, groupTotal_cons_eq h1, groupTotal_cons_eq hke,
        bumpFeedback_total_of_eq (hke.trans hft.symm)]
    · obtain ⟨e1, he1, hk1⟩ := hex
      have hex' : ∃ x ∈ rest, x.1 = t := by
        rcases List.mem_cons.mp he1 with rfl | h'
        · exact absurd hk1 hke
        · exact ⟨e1, h', hk1⟩
      have h1 : ¬ (bumpFeedback fb e).1 = t := by rw [bumpFeedback_fst]; exact hke
      rw [List.map_cons, groupTotal_cons_ne h1, groupTotal_cons_ne hke]
      exact groupTotal_map_bump_eq fb hft rest hex'

theorem groupTotal_addFeedback (acc : List (RecommendationType × Nat × Nat × Nat))
    (fb : RecommendationFeedback) (t : RecommendationType) :
    groupTotal (addFeedback acc fb) t =
      groupTotal acc t + (if fb.recommendation_type = t then 1 else 0) := by
  unfold addFeedback
  by_cases hany : acc.any (fun e => decide (e.1 = fb.recommendation_type)) = true
  · rw [if_pos hany]
    by_cases hft : fb.recommendation_type = t
    · rw [if_pos hft]
      rcases List.any_eq_true.mp hany with ⟨e0, he0, hk0⟩
      exact groupTotal_map_bump_eq fb hft acc
        ⟨e0, he0, (of_decide_eq_true hk0).trans hft⟩
    · rw [if_neg hft, groupTotal_map_bump_ne fb hft acc]
      omega
  · rw [if_neg hany]
    have hall : ∀ e ∈ acc, ¬ e.1 = fb.recommendation_type := by
      intro e he hk
      exact hany (List.any_eq_true.mpr ⟨e, he, decide_eq_true hk⟩)
    by_cases hft : fb.recommendation_type = t
    · rw [if_pos hft]
      have habs : ∀ e ∈ acc, ¬ e.1 = t := fun e he hk => hall e he (hk.trans hft.symm)
      rw [groupTotal_append_of_absent _ habs, groupTotal_eq_zero habs,
        groupTotal_cons_eq hft]
    · rw [if_neg hft, groupTotal_append_ne hft acc]
      omega

theorem groupTotal_foldl (rows : List RecommendationFeedback) (t : RecommendationType) :
    ∀ acc, groupTotal (rows.foldl addFeedback acc) t =
      groupTotal acc t + rows.countP (fun fb => decide (fb.recommendation_type = t)) := by
  induction rows with
  | nil => intro acc; simp
  | cons fb rest ih =>
    intro acc
    rw [List.foldl_cons, ih, groupTotal_addFeedback, List.countP_cons]
    by_cases h : fb.recommendation_type = t
    · simp [h]; omega
    · simp [h]

theorem totalFeedbackFor_cons_eq {s : RecommendationStats}
    {rest : List RecommendationStats} {t : RecommendationType}
    (h : s.recommendation_type = t) :
    totalFeedbackFor (s :: rest) t = s.total_feedback := by
  simp [totalFeedbackFor, List.find?_cons, h]

theorem totalFeedbackFor_cons_ne {s : RecommendationStats}
    {rest : List RecommendationStats} {t : RecommendationType}
    (h : ¬ s.recommendation_type = t) :
    totalFeedbackFor (s :: rest) t = totalFeedbackFor rest t := by
  simp [totalFeedbackFor, List.find?_cons, h]

theorem totalFeedbackFor_map (t : RecommendationType) :
    ∀ (groups : List (RecommendationType × Nat × Nat × Nat)),
    totalFeedbackFor
      (groups.map (fun e =>
        ({ recommendation_type := e.1, total_generated := 100, total_feedback := e.2.1,
           positive_feedback := e.2.2.1, negative_feedback := e.2.2.2,
           feedback_rate := round3 ((e.2.1 : ℚ) / 100),
           positive_rate := round3 (if e.2.1 = 0 then 0 else (e.2.2.1 : ℚ) / (e.2.1 : ℚ)),
           avg_score := none } : RecommendationStats))) t = groupTotal groups t
  | [] => rfl
  | e :: rest => by
    by_cases hke : e.1 = t
    · rw [List.map_cons, totalFeedbackFor_cons_eq hke, groupTotal_cons_eq hke]
    · rw [List.map_cons, totalFeedbackFor_cons_ne hke, groupTotal_cons_ne hke]
      exact totalFeedbackFor_map t rest

theorem totalFeedbackFor_stats_none (db : DB) (t : RecommendationType) :
    totalFeedbackFor (get_recommendation_stats db none) t =
      db.feedback.countP (fun fb => decide (fb.recommendation_type = t)) := by
  unfold get_recommendation_stats statsGroups
  rw [totalFeedbackFor_map]
  rw [groupTotal_foldl]
  simp [groupTotal_nil]

theorem totalFeedbackFor_stats_some (db : DB) (t : RecommendationType) :
    totalFeedbackFor (get_recommendation_stats db (some t)) t =
      db.feedback.countP (fun fb => decide (fb.recommendation_type = t)) := by
  unfold get_recommendation_stats statsGroups
  rw [totalFeedbackFor_map]
  rw [groupTotal_foldl]
  simp only [groupTotal_nil, Nat.zero_add]
  rw [List.countP_filter]
  simp

/-- C8: recording the same feedback twice appends two distinct rows with
distinct autoincrement identifiers, and the `total_feedback` that
`get_recommendation_stats` reports for that strategy tag (with or without the
type filter) increases by exactly 2. -/
theorem C8_feedback_no_dedup (db : DB) (uid : Nat) (fd : RecommendationFeedbackCreate) :
    (create_recommendation_feedback db uid fd).2.id ≠
      (create_recommendation_feedback
        (create_recommendation_feedback db uid fd).1 uid fd).2.id ∧
    (create_recommendation_feedback
        (create_recommendation_feedback db uid fd).1 uid fd).1.feedback =
      db.feedback ++ [(create_recommendation_feedback db uid fd).2,
        (create_recommendation_feedback
          (create_recommendation_feedback db uid fd).1 uid fd).2] ∧
    totalFeedbackFor
        (get_recommendation_stats
          (create_recommendation_feedback
            (create_recommendation_feedback db uid fd).1 uid fd).1 none)
        fd.recommendation_type =
      totalFeedbackFor (get_recommendation_stats db none) fd.recommendation_type + 2 ∧
    totalFeedbackFor
        (get_recommendation_stats
          (create_recommendation_feedback
            (create_recommendation_feedback db uid fd).1 uid fd).1
          (some fd.recommendation_type))
        fd.recommendation_type =
      totalFeedbackFor (get_recommendation_stats db (some fd.recommendation_type))
        fd.recommendation_type + 2 := by
  refine ⟨by simp [create_recommendation_feedback], by
    simp [create_recommendation_feedback], ?_, ?_⟩
  · rw [totalFeedbackFor_stats_none, totalFeedbackFor_stats_none]
    simp [create_recommendation_feedback, List.countP_append]
  · rw [totalFeedbackFor_stats_some, totalFeedbackFor_stats_some]
    simp [create_recommendation_feedback, List.countP_append]

/-! ### Decimal rendering: parse-back and injectivity (claim C9) -/

theorem digitChar_toNat {d : Nat} (h : d < 10) : (digitChar d).toNat = 48 + d := by
  interval_cases d <;> rfl

theorem digitChar_isDigit {d : Nat} (h : d < 10) : isDigitC (digitChar d) = true := by
  interval_cases d <;> rfl

theorem digitsVal_append_singleton (l : List Char) (c : Char) :
    digitsVal (l ++ [c]) = 10 * digitsVal l + (c.toNat - 48) := by
  unfold digitsVal
  rw [List.foldl_append]
  rfl

theorem digitsVal_natDecAux :
    ∀ (fuel n : Nat), n < 10 ^ fuel → digitsVal (natDecAux fuel n) = n
  | 0, n, h => by
    have : n = 0 := by simpa using h
    subst this
    rfl
  | fuel + 1, n, h => by
    unfold natDecAux
    by_cases h10 : n < 10
    · rw [if_pos h10]
      show 10 * 0 + ((digitChar n).toNat - 48) = n
      rw [digitChar_toNat h10]
      omega
    · rw [if_neg h10]
      rw [digitsVal_append_singleton]
      have hdiv : n / 10 < 10 ^ fuel := by
        rw [Nat.div_lt_iff_lt_mul (by norm_num)]
        calc n < 10 ^ (fuel + 1) := h
        _ = 10 ^ fuel * 10 := by ring
      rw [digitsVal_natDecAux fuel (n / 10) hdiv]
      rw [digitChar_toNat (Nat.mod_lt n (by norm_num))]
      omega

theorem natDecAux_digits :
    ∀ (fuel n : Nat), ∀ c ∈ natDecAux fuel n, isDigitC c = true
  | 0, _, c, h => absurd h (List.not_mem_nil c)
  | fuel + 1, n, c, h => by
    unfold natDecAux at h
    by_cases h10 : n < 10
    · rw [if_pos h10] at h
      rw [List.mem_singleton.mp h]
      exact digitChar_isDigit h10
    · rw [if_neg h10] at h
      rcases List.mem_append.mp h with h' | h'
      · exact natDecAux_digits fuel (n / 10) c h'
      · rw [List.mem_singleton.mp h']
        exact digitChar_isDigit (Nat.mod_lt n (by norm_num))

theorem natDecAux_length :
    ∀ (fuel n : Nat), n < 10 ^ fuel → (natDecAux fuel n).length ≤ fuel
  | 0, _, _ => by simp [natDecAux]
  | fuel + 1, n, h => by
    unfold natDecAux
    by_cases h10 : n < 10
    · rw [if_pos h10]
      simp
    · rw [if_neg h10]
      rw [List.length_append]
      have hdiv : n / 10 < 10 ^ fuel := by
        rw [Nat.div_lt_iff_lt_mul (by norm_num)]
        calc n < 10 ^ (fuel + 1) := h
        _ = 10 ^ fuel * 10 := by ring
      have := natDecAux_length fuel (n / 10) hdiv
      simp only [List.length_singleton]
      omega

theorem natDecAux_fuel_eq :
    ∀ (f f' n : Nat), 1 ≤ f → 1 ≤ f' → n < 10 ^ f → n < 10 ^ f' →
      natDecAux f n = natDecAux f' n
  | 0, _, _, hf, _, _, _ => absurd hf (by omega)
  | _ + 1, 0, _, _, hf', _, _ => absurd hf' (by omega)
  | f + 1, f' + 1, n, _, _, h, h' => by
    unfold natDecAux
    by_cases h10 : n < 10
    · rw [if_pos h10, if_pos h10]
    · rw [if_neg h10, if_neg h10]
      have hdiv : ∀ g : Nat, n < 10 ^ (g + 1) → n / 10 < 10 ^ g := by
        intro g hg
        rw [Nat.div_lt_iff_lt_mul (by norm_num)]
        calc n < 10 ^ (g + 1) := hg
        _ = 10 ^ g * 10 := by ring
      have h1 : 1 ≤ f := by
        by_contra hc
        have : f = 0 := by omega
        subst this
        have := hdiv 0 h
        simp at this
        omega
      have h1' : 1 ≤ f' := by
        by_contra hc
        have : f' = 0 := by omega
        subst this
        have := hdiv 0 h'
        simp at this
        omega
      rw [natDecAux_fuel_eq f f' (n / 10) h1 h1' (hdiv f h) (hdiv f' h')]

theorem n_lt_ten_pow (n : Nat) : n < 10 ^ (n + 1) := by
  calc n < 10 ^ n := Nat.lt_pow_self (by norm_num) n
  _ < 10 ^ (n + 1) := Nat.pow_lt_pow_succ (by norm_num)

theorem digitsVal_natDec (n : Nat) : digitsVal (natDec n) = n :=
  digitsVal_natDecAux (n + 1) n (n_lt_ten_pow n)

theorem natDec_inj {m n : Nat} (h : natDec m = natDec n) : m = n := by
  rw [← digitsVal_natDec m, h, digitsVal_natDec]

theorem natDec_digits {n : Nat} : ∀ c ∈ natDec n, isDigitC c = true :=
  natDecAux_digits (n + 1) n

theorem natDec_ne_nil (n : Nat) : natDec n ≠ [] := by
  unfold natDec natDecAux
  by_cases h10 : n < 10
  · rw [if_pos h10]; simp
  · rw [if_neg h10]; simp

theorem natDec_length_le {k m : Nat} (hk : 1 ≤ k) (h : m < 10 ^ k) :
    (natDec m).length ≤ k := by
  rw [natDec, natDecAux_fuel_eq (m + 1) k m (by omega) hk (n_lt_ten_pow m) h]
  exact natDecAux_length k m h

/-- Splitting a concatenation at the first non-digit: if both left parts are
all digits and both right parts start with a non-digit (or are empty), the
parts coincide. -/
theorem digits_split :
    ∀ {xs xs' ys ys' : List Char},
      (∀ c ∈ xs, isDigitC c = true) → (∀ c ∈ xs', isDigitC c = true) →
      (∀ c, ys.head? = some c → isDigitC c = false) →
      (∀ c, ys'.head? = some c → isDigitC c = false) →
      xs ++ ys = xs' ++ ys' → xs = xs' ∧ ys = ys'
  | [], [], _, _, _, _, _, _, h => ⟨rfl, by simpa using h⟩
  | [], x' :: t', _, _, _, hx', hy, _, h => by
    exfalso
    rw [List.nil_append, List.cons_append] at h
    have h1 := hy x' (by rw [h]; rfl)
    have h2 := hx' x' (by simp)
    rw [h2] at h1
    cases h1
  | x :: t, [], _, _, hx, _, _, hy', h => by
    exfalso
    rw [List.nil_append, List.cons_append] at h
    have h1 := hy' x (by rw [← h]; rfl)
    have h2 := hx x (by simp)
    rw [h2] at h1
    cases h1
  | x :: t, x' :: t', ys, ys', hx, hx', hy, hy', h => by
    rw [List.cons_append, List.cons_append] at h
    injection h with h1 h2
    subst h1
    obtain ⟨ht, hys⟩ := digits_split (fun c hc => hx c (by simp [hc]))
      (fun c hc => hx' c (by simp [hc])) hy hy' h2
    exact ⟨by rw [ht], hys⟩

theorem digitsVal_leading_zeros :
    ∀ (j : Nat) (l : List Char),
      digitsVal (List.replicate j '0' ++ l) = digitsVal l
  | 0, _ => rfl
  | j + 1, l => by
    rw [List.replicate_succ, List.cons_append]
    show digitsVal (List.replicate j '0' ++ l) = digitsVal l
    exact digitsVal_leading_zeros j l

theorem digitsVal_padDec (m k : Nat) : digitsVal (padDec m k) = m := by
  unfold padDec
  rw [digitsVal_leading_zeros]
  exact digitsVal_natDec m

theorem padDec_digits {m k : Nat} : ∀ c ∈ padDec m k, isDigitC c = true := by
  intro c hc
  unfold padDec at hc
  rcases List.mem_append.mp hc with h' | h'
  · rw [List.eq_of_mem_replicate h']
    rfl
  · exact natDec_digits c h'

theorem padDec_length {m k : Nat} (hk : 1 ≤ k) (h : m < 10 ^ k) :
    (padDec m k).length = k := by
  unfold padDec
  rw [List.length_append, List.length_replicate]
  have := natDec_length_le hk h
  omega

theorem decExpLen_spec {d : Nat} (h : d ∣ 10 ^ d) : d ∣ 10 ^ decExpLen d := by
  unfold decExpLen
  cases hf : (List.range (d + 1)).find? (fun k => decide (10 ^ k % d = 0)) with
  | some k =>
    have := List.find?_some hf
    exact Nat.dvd_of_mod_eq_zero (of_decide_eq_true this)
  | none =>
    exfalso
    have hmem : d ∈ List.range (d + 1) := List.mem_range.mpr (by omega)
    have := List.find?_eq_none.mp hf d hmem
    exact this (decide_eq_true (Nat.eq_zero_of_dvd_of_lt h |> fun _ => by
      exact Nat.mod_eq_zero_of_dvd h))

/-- For `0 ≤ q` with `q.den ∣ 10 ^ k`, the integer `(q * 10 ^ k).num.toNat`
recovers `q * 10 ^ k`. -/
theorem rat_scale_toNat {q : ℚ} (h0 : 0 ≤ q) {k : Nat} (hd : q.den ∣ 10 ^ k) :
    (((q * (10 : ℚ) ^ k).num.toNat : Nat) : ℚ) = q * (10 : ℚ) ^ k := by
  obtain ⟨c, hc⟩ := hd
  have hden : ((q.den : ℚ)) ≠ 0 := by
    exact_mod_cast q.den_nz
  have hnd := Rat.num_div_den q
  rw [div_eq_iff hden] at hnd
  have hint : q * (10 : ℚ) ^ k = ((q.num * c : ℤ) : ℚ) := by
    have h1 : ((10 : ℚ)) ^ k = ((q.den : ℚ)) * ((c : ℕ) : ℚ) := by
      have := congrArg (fun n : ℕ => ((n : ℕ) : ℚ)) hc
      push_cast at this
      simpa using this
    rw [h1, ← mul_assoc, ← hnd]
    push_cast
    ring
  rw [hint, Rat.num_intCast]
  have hnum : 0 ≤ q.num := Rat.num_nonneg.mpr h0
  have hmul : 0 ≤ q.num * (c : ℤ) := mul_nonneg hnum (Int.ofNat_nonneg c)
  have h2 : ((q.num * (c : ℤ)).toNat : ℤ) = q.num * (c : ℤ) := Int.toNat_of_nonneg hmul
  exact_mod_cast congrArg (fun z : ℤ => ((z : ℤ) : ℚ)) h2

/-- The shape of the float rendering: an all-digit integer part, a point, and a
`kk`-character fraction encoding a scaled integer `m` with `(m : ℚ) = q * 10^kk`. -/
theorem pyFloat_decode {q : ℚ} (h0 : 0 ≤ q) (hd : q.den ∣ 10 ^ q.den) :
    ∃ kk m, 1 ≤ kk ∧
      pyFloatChars q = natDec (m / 10 ^ kk) ++ '.' :: padDec (m % 10 ^ kk) kk ∧
      ((m : ℚ) = q * (10 : ℚ) ^ kk) := by
  have hdk : q.den ∣ 10 ^ max (decExpLen q.den) 1 :=
    (decExpLen_spec hd).trans (pow_dvd_pow 10 (le_max_left _ _))
  exact ⟨max (decExpLen q.den) 1, (q * (10 : ℚ) ^ max (decExpLen q.den) 1).num.toNat,
    le_max_right _ _, rfl, rat_scale_toNat h0 hdk⟩

/-- Injectivity of the float rendering on nonnegative values with finite
decimal expansions: the printed characters determine the value. -/
theorem pyFloatChars_inj {q q' : ℚ} (h0 : 0 ≤ q) (h0' : 0 ≤ q')
    (hd : q.den ∣ 10 ^ q.den) (hd' : q'.den ∣ 10 ^ q'.den)
    (h : pyFloatChars q = pyFloatChars q') : q = q' := by
  obtain ⟨kk, m, hk1, he, hv⟩ := pyFloat_decode h0 hd
  obtain ⟨kk', m', hk1', he', hv'⟩ := pyFloat_decode h0' hd'
  rw [he, he'] at h
  obtain ⟨hint, hfrac⟩ := digits_split
    (fun c hc => natDec_digits c hc) (fun c hc => natDec_digits c hc)
    (fun c hc => by simp only [List.head?_cons, Option.some.injEq] at hc; rw [← hc]; rfl)
    (fun c hc => by simp only [List.head?_cons, Option.some.injEq] at hc; rw [← hc]; rfl) h
  have hi := natDec_inj hint
  injection hfrac with _ hpad
  have hmlt : m % 10 ^ kk < 10 ^ kk := Nat.mod_lt _ (Nat.pos_pow_of_pos _ (by norm_num))
  have hmlt' : m' % 10 ^ kk' < 10 ^ kk' := Nat.mod_lt _ (Nat.pos_pow_of_pos _ (by norm_num))
  have hklen : kk = kk' := by
    have := congrArg List.length hpad
    rw [padDec_length hk1 hmlt, padDec_length hk1' hmlt'] at this
    exact this
  subst hklen
  have hfv := congrArg digitsVal hpad
  rw [digitsVal_padDec, digitsVal_padDec] at hfv
  have hmm : m = m' := by
    rw [← Nat.div_add_mod m (10 ^ kk), ← Nat.div_add_mod m' (10 ^ kk), hi, hfv]
  have hq : q * (10 : ℚ) ^ kk = q' * (10 : ℚ) ^ kk := by
    rw [← hv, ← hv', hmm]
  have hpow : ((10 : ℚ) ^ kk) ≠ 0 := by positivity
  exact mul_right_cancel₀ hpow hq

theorem stringData_inj {s s' : String} (h : s.data = s'.data) : s = s' := by
  cases s
  cases s'
  exact congrArg String.mk h

theorem natDec_ne_none_data (n : Nat) : natDec n ≠ "None".data := by
  intro h
  have hm : 'N' ∈ natDec n := by
    rw [h]
    decide
  exact absurd (natDec_digits 'N' hm) (by decide)

theorem optIntChars_inj {a b : Option Nat} (h : optIntChars a = optIntChars b) :
    a = b := by
  cases a with
  | none =>
    cases b with
    | none => rfl
    | some n => exact absurd h.symm (natDec_ne_none_data n)
  | some n =>
    cases b with
    | none => exact absurd h (natDec_ne_none_data n)
    | some n' => rw [natDec_inj h]

theorem optBoolChars_inj {a b : Option Bool} (h : optBoolChars a = optBoolChars b) :
    a = b := by
  cases a with
  | none =>
    cases b with
    | none => rfl
    | some b2 => cases b2 <;> exact absurd h (by decide)
  | some a1 =>
    cases b with
    | none => cases a1 <;> exact absurd h (by decide)
    | some b2 =>
      cases a1 <;> cases b2 <;> first | rfl | exact absurd h (by decide)

theorem intListChars_ne_nil (n : Nat) (t : List Nat) : intListChars (n :: t) ≠ [] := by
  cases t with
  | nil => exact natDec_ne_nil n
  | cons m r =>
    intro h
    have hpos : 0 < (natDec n).length := List.length_pos.mpr (natDec_ne_nil n)
    have hlen := congrArg List.length h
    rw [show intListChars (n :: m :: r) =
      natDec n ++ ',' :: ' ' :: intListChars (m :: r) from rfl,
      List.length_append] at hlen
    simp only [List.length_nil, List.length_cons] at hlen
    omega

theorem intListChars_inj : ∀ {l l' : List Nat}, intListChars l = intListChars l' → l = l'
  | [], [], _ => rfl
  | [], n' :: t', h => absurd h.symm (intListChars_ne_nil n' t')
  | n :: t, [], h => absurd h (intListChars_ne_nil n t)
  | n :: t, n' :: t', h => by
    cases t with
    | nil =>
      cases t' with
      | nil =>
        rw [show intListChars [n] = natDec n from rfl,
          show intListChars [n'] = natDec n' from rfl] at h
        rw [natDec_inj h]
      | cons m' r' =>
        rw [show intListChars [n] = natDec n from rfl,
          show intListChars (n' :: m' :: r') =
            natDec n' ++ ',' :: ' ' :: intListChars (m' :: r') from rfl,
          ← List.append_nil (natDec n)] at h
        obtain ⟨_, hy⟩ := digits_split (fun c hc => natDec_digits c hc)
          (fun c hc => natDec_digits c hc)
          (fun c hc => by cases hc)
          (fun c hc => by
            simp only [List.head?_cons, Option.some.injEq] at hc
            rw [← hc]
            rfl) h
        cases hy
    | cons m r =>
      cases t' with
      | nil =>
        rw [show intListChars [n'] = natDec n' from rfl,
          show intListChars (n :: m :: r) =
            natDec n ++ ',' :: ' ' :: intListChars (m :: r) from rfl,
          ← List.append_nil (natDec n')] at h
        obtain ⟨_, hy⟩ := digits_split (fun c hc => natDec_digits c hc)
          (fun c hc => natDec_digits c hc)
          (fun c hc => by
            simp only [List.head?_cons, Option.some.injEq] at hc
            rw [← hc]
            rfl)
          (fun c hc => by cases hc) h
        cases hy
      | cons m' r' =>
        rw [show intListChars (n :: m :: r) =
            natDec n ++ ',' :: ' ' :: intListChars (m :: r) from rfl,
          show intListChars (n' :: m' :: r') =
            natDec n' ++ ',' :: ' ' :: intListChars (m' :: r') from rfl] at h
        obtain ⟨hx, hy⟩ := digits_split (fun c hc => natDec_digits c hc)
          (fun c hc => natDec_digits c hc)
          (fun c hc => by
            simp only [List.head?_cons, Option.some.injEq] at hc
            rw [← hc]
            rfl)
          (fun c hc => by
            simp only [List.head?_cons, Option.some.injEq] at hc
            rw [← hc]
            rfl) h
        have h1 := natDec_inj hx
        injection hy with _ hy2
        injection hy2 with _ hy3
        have h2 := intListChars_inj hy3
        rw [h1, h2]

theorem optListChars_inj {a b : Option (List Nat)}
    (h : optListChars a = optListChars b) : a = b := by
  cases a with
  | none =>
    cases b with
    | none => rfl
    | some l =>
      exfalso
      rw [optListChars, optListChars,
        show "None".data = 'N' :: ['o', 'n', 'e'] from rfl] at h
      injection h with h1 _
      exact absurd h1 (by decide)
  | some l =>
    cases b with
    | none =>
      exfalso
      rw [optListChars, optListChars,
        show "None".data = 'N' :: ['o', 'n', 'e'] from rfl] at h
      injection h with h1 _
      exact absurd h1 (by decide)
    | some l' =>
      rw [optListChars, optListChars] at h
      injection h with _ h2
      rw [intListChars_inj (List.append_cancel_right h2)]

theorem pyFloatChars_head_digit (q : ℚ) :
    ∃ c cs, pyFloatChars q = c :: cs ∧ isDigitC c = true := by
  have he : pyFloatChars q =
      natDec ((q * (10 : ℚ) ^ max (decExpLen q.den) 1).num.toNat
          / 10 ^ max (decExpLen q.den) 1) ++
        '.' :: padDec ((q * (10 : ℚ) ^ max (decExpLen q.den) 1).num.toNat
          % 10 ^ max (decExpLen q.den) 1) (max (decExpLen q.den) 1) := rfl
  obtain ⟨c, cs, hc⟩ := List.exists_cons_of_ne_nil
    (natDec_ne_nil ((q * (10 : ℚ) ^ max (decExpLen q.den) 1).num.toNat
      / 10 ^ max (decExpLen q.den) 1))
  refine ⟨c, cs ++ '.' :: padDec ((q * (10 : ℚ) ^ max (decExpLen q.den) 1).num.toNat
    % 10 ^ max (decExpLen q.den) 1) (max (decExpLen q.den) 1), ?_, ?_⟩
  · rw [he, hc]
    rfl
  · exact natDec_digits c (by rw [hc]; simp)

theorem optFloatChars_inj {a b : Option ℚ} (ha : floatOk a) (hb : floatOk b)
    (h : optFloatChars a = optFloatChars b) : a = b := by
  cases a with
  | none =>
    cases b with
    | none => rfl
    | some q =>
      exfalso
      obtain ⟨c, cs, hc, hd⟩ := pyFloatChars_head_digit q
      rw [optFloatChars, optFloatChars, hc,
        show "None".data = 'N' :: ['o', 'n', 'e'] from rfl] at h
      injection h with h1 _
      rw [← h1] at hd
      exact absurd hd (by decide)
  | some q =>
    cases b with
    | none =>
      exfalso
      obtain ⟨c, cs, hc, hd⟩ := pyFloatChars_head_digit q
      rw [optFloatChars, optFloatChars, hc,
        show "None".data = 'N' :: ['o', 'n', 'e'] from rfl] at h
      injection h with h1 _
      rw [h1] at hd
      exact absurd hd (by decide)
    | some q' =>
      rw [optFloatChars, optFloatChars] at h
      rw [pyFloatChars_inj ha.1 hb.1 ha.2 hb.2 h]

/-- Peel the shared `rec_{user_id}_{rec_type}_` prefix off an equality of cache
strings with identical `user_id` and `rec_type`. -/
theorem cacheChars_params_eq {u : Nat} {t : String} {p p' : RecommendationParameters}
    (h : cacheChars u t p = cacheChars u t p') : paramsChars p = paramsChars p' := by
  unfold cacheChars at h
  have h2 := List.append_cancel_left h
  have h3 := List.append_cancel_left h2
  rw [List.cons.injEq] at h3
  have h5 := List.append_cancel_left h3.2
  rw [List.cons.injEq] at h5
  exact h5.2

theorem cacheChars_user_inj {u u' : Nat} {t : String} {p : RecommendationParameters}
    (h : cacheChars u t p = cacheChars u' t p) : u = u' := by
  unfold cacheChars at h
  have h2 := List.append_cancel_left h
  exact natDec_inj (List.append_cancel_right h2)

theorem cacheChars_type_inj {u : Nat} {t t' : String} {p : RecommendationParameters}
    (h : cacheChars u t p = cacheChars u t' p) : t = t' := by
  unfold cacheChars at h
  have h2 := List.append_cancel_left h
  have h3 := List.append_cancel_left h2
  injection h3 with _ h4
  exact stringData_inj (List.append_cancel_right h4)

theorem paramsChars_explicit (l : Option Nat) (e : Option Bool) (m : Option ℚ)
    (g : Option (List Nat)) :
    paramsChars ⟨l, e, m, g⟩ =
      optIntChars l ++ '_' :: (optBoolChars e ++ '_' ::
        (optFloatChars m ++ '_' :: optListChars g)) := rfl

theorem paramsChars_limit_inj {l l' : Option Nat} {e : Option Bool} {m : Option ℚ}
    {g : Option (List Nat)}
    (h : paramsChars ⟨l, e, m, g⟩ = paramsChars ⟨l', e, m, g⟩) : l = l' := by
  rw [paramsChars_explicit, paramsChars_explicit] at h
  exact optIntChars_inj (List.append_cancel_right h)

theorem paramsChars_exclude_inj {l : Option Nat} {e e' : Option Bool} {m : Option ℚ}
    {g : Option (List Nat)}
    (h : paramsChars ⟨l, e, m, g⟩ = paramsChars ⟨l, e', m, g⟩) : e = e' := by
  rw [paramsChars_explicit, paramsChars_explicit] at h
  have h2 := List.append_cancel_left h
  injection h2 with _ h3
  exact optBoolChars_inj (List.append_cancel_right h3)

theorem paramsChars_minr_inj {l : Option Nat} {e : Option Bool} {m m' : Option ℚ}
    {g : Option (List Nat)} (hm : floatOk m) (hm' : floatOk m')
    (h : paramsChars ⟨l, e, m, g⟩ = paramsChars ⟨l, e, m', g⟩) : m = m' := by
  rw [paramsChars_explicit, paramsChars_explicit] at h
  have h2 := List.append_cancel_left h
  injection h2 with _ h3
  have h4 := List.append_cancel_left h3
  injection h4 with _ h5
  exact optFloatChars_inj hm hm' (List.append_cancel_right h5)

theorem paramsChars_genres_inj {l : Option Nat} {e : Option Bool} {m : Option ℚ}
    {g g' : Option (List Nat)}
    (h : paramsChars ⟨l, e, m, g⟩ = paramsChars ⟨l, e, m, g'⟩) : g = g' := by
  rw [paramsChars_explicit, paramsChars_explicit] at h
  have h2 := List.append_cancel_left h
  injection h2 with _ h3
  have h4 := List.append_cancel_left h3
  injection h4 with _ h5
  have h6 := List.append_cancel_left h5
  injection h6 with _ h7
  exact optListChars_inj h7

theorem cache_string_data {u : Nat} {t : String} {p p' : RecommendationParameters}
    (h : cache_string u t p = cache_string u t p') : cacheChars u t p = cacheChars u t p' := by
  have := congrArg String.data h
  exact this

theorem cache_string_data' {u u' : Nat} {t t' : String} {p p' : RecommendationParameters}
    (h : cache_string u t p = cache_string u' t' p') :
    cacheChars u t p = cacheChars u' t' p' := by
  have := congrArg String.data h
  exact this

theorem md5hex_length (s : String) : (md5hex s).length = 32 := by
  unfold md5hex
  show (String.mk _).length = 32
  simp [String.length]

/-- C9: the cache key derivation is deterministic, produces a fixed-length
(32-character) string, and changing any single one of the six inputs —
`user_id`, `rec_type`, `limit`, `exclude_user_books`, `min_rating` (over the
values a Python float can print), `genres` — changes the pre-hash
`cache_string` (distinctness of the digest itself holds up to hash
collision, exactly as the claim qualifies it). -/
theorem C9_cache_key_behavior :
    (∀ (u u' : Nat) (t t' : String) (p p' : RecommendationParameters),
      u = u' → t = t' → p = p' →
      generate_cache_key u t p = generate_cache_key u' t' p') ∧
    (∀ (u : Nat) (t : String) (p : RecommendationParameters),
      (generate_cache_key u t p).length = 32) ∧
    (∀ (u u' : Nat) (t : String) (p : RecommendationParameters), u ≠ u' →
      cache_string u t p ≠ cache_string u' t p) ∧
    (∀ (u : Nat) (t t' : String) (p : RecommendationParameters), t ≠ t' →
      cache_string u t p ≠ cache_string u t' p) ∧
    (∀ (u : Nat) (t : String) (l l' : Option Nat) (e : Option Bool) (m : Option ℚ)
      (g : Option (List Nat)), l ≠ l' →
      cache_string u t ⟨l, e, m, g⟩ ≠ cache_string u t ⟨l', e, m, g⟩) ∧
    (∀ (u : Nat) (t : String) (l : Option Nat) (e e' : Option Bool) (m : Option ℚ)
      (g : Option (List Nat)), e ≠ e' →
      cache_string u t ⟨l, e, m, g⟩ ≠ cache_string u t ⟨l, e', m, g⟩) ∧
    (∀ (u : Nat) (t : String) (l : Option Nat) (e : Option Bool) (m m' : Option ℚ)
      (g : Option (List Nat)), floatOk m → floatOk m' → m ≠ m' →
      cache_string u t ⟨l, e, m, g⟩ ≠ cache_string u t ⟨l, e, m', g⟩) ∧
    (∀ (u : Nat) (t : String) (l : Option Nat) (e : Option Bool) (m : Option ℚ)
      (g g' : Option (List Nat)), g ≠ g' →
      cache_string u t ⟨l, e, m, g⟩ ≠ cache_string u t ⟨l, e, m, g'⟩) := by
  refine ⟨?_, ?_, ?_, ?_, ?_, ?_, ?_, ?_⟩
  · intro u u' t t' p p' hu ht hp
    rw [hu, ht, hp]
  · intro u t p
    exact md5hex_length _
  · intro u u' t p hne he
    exact hne (cacheChars_user_inj (cache_string_data' he))
  · intro u t t' p hne he
    exact hne (cacheChars_type_inj (cache_string_data' he))
  · intro u t l l' e m g hne he
    exact hne (paramsChars_limit_inj (cacheChars_params_eq (cache_string_data he)))
  · intro u t l e e' m g hne he
    exact hne (paramsChars_exclude_inj (cacheChars_params_eq (cache_string_data he)))
  · intro u t l e m m' g hm hm' hne he
    exact hne (paramsChars_minr_inj hm hm' (cacheChars_params_eq (cache_string_data he)))
  · intro u t l e m g g' hne he
    exact hne (paramsChars_genres_inj (cacheChars_params_eq (cache_string_data he)))

/-- C9 witness: the behaviour at concrete inputs — a 32-character key, and a
changed `user_id`, `rec_type`, `limit`, exclusion flag, `min_rating` (3.5 vs
4.0) or genre list each change the pre-hash string. -/
theorem C9_witness :
    (generate_cache_key 3 "content_based" pDefault).length = 32 ∧
    cache_string 3 "content_based" pDefault ≠ cache_string 4 "content_based" pDefault ∧
    cache_string 3 "content_based" pDefault ≠ cache_string 3 "popularity_based" pDefault ∧
    cache_string 3 "content_based" ⟨some 10, some true, none, none⟩ ≠
      cache_string 3 "content_based" ⟨some 5, some true, none, none⟩ ∧
    cache_string 3 "content_based" ⟨some 10, some true, none, none⟩ ≠
      cache_string 3 "content_based" ⟨some 10, some false, none, none⟩ ∧
    cache_string 3 "content_based" ⟨some 10, some true, some (7 / 2), none⟩ ≠
      cache_string 3 "content_based" ⟨some 10, some true, some 4, none⟩ ∧
    cache_string 3 "content_based" ⟨some 10, some true, none, some [1, 2]⟩ ≠
      cache_string 3 "content_based" ⟨some 10, some true, none, some [2]⟩ :=
  ⟨C9_cache_key_behavior.2.1 3 "content_based" pDefault,
    C9_cache_key_behavior.2.2.1 3 4 "content_based" pDefault (by decide),
    C9_cache_key_behavior.2.2.2.1 3 "content_based" "popularity_based" pDefault
      (by decide),
    C9_cache_key_behavior.2.2.2.2.1 3 "content_based" (some 10) (some 5) (some true)
      none none (by decide),
    C9_cache_key_behavior.2.2.2.2.2.1 3 "content_based" (some 10) (some true)
      (some false) none none (by decide),
    C9_cache_key_behavior.2.2.2.2.2.2.1 3 "content_based" (some 10) (some true)
      (some (7 / 2)) (some 4) none
      ⟨by norm_num, by with_unfolding_all decide⟩
      ⟨by norm_num, by with_unfolding_all decide⟩
      (by with_unfolding_all decide),
    C9_cache_key_behavior.2.2.2.2.2.2.2 3 "content_based" (some 10) (some true) none
      (some [1, 2]) (some [2]) (by decide)⟩

/-! ### The join fan-out bugs (claims C3 and C4) -/

set_option maxRecDepth 4000 in
/-- C3 failing-input evaluation: in `dbFanPop` book 1 has exactly 2 reviews
(both rating 5) and 2 favorites, but the popularity query's two outer joins
produce 2 × 2 joined rows, so `count(Review.id)` and `count(Favorite.id)` are
both 4, and the code's score is `round3(1 × 0.5 + (4/100) × 0.3 + (4/50) × 0.2)
= 0.528` — while the claim's formula over the actual counts gives
`round3(0.5 + (2/100) × 0.3 + (2/50) × 0.2) = 0.514`.  The code thus
contradicts its own reason string ("with {review_count} reviews") and the
"Normalize review count" intent. -/
theorem C3_popularity_fanout_eval :
    reviewCount dbFanPop 1 = 2 ∧ favoriteCount dbFanPop 1 = 2 ∧
    avgRating dbFanPop 1 = 5 ∧
    (get_popularity_based_recommendations dbFanPop 1 pDefault).map
      (fun it => it.score) = [66 / 125] ∧
    round3 ((avgRating dbFanPop 1 / 5) * (1 / 2) +
      min ((reviewCount dbFanPop 1 : ℚ) / 100) 1 * (3 / 10) +
      min ((favoriteCount dbFanPop 1 : ℚ) / 50) 1 * (1 / 5)) = 257 / 500 ∧
    (66 / 125 : ℚ) ≠ 257 / 500 := by
  with_unfolding_all decide

set_option maxRecDepth 4000 in
/-- C4 failing-input evaluation: in `dbFanContent` book 20 has exactly 1 review
but 3 genre tags matching the affinity set, so the content query's genre join
triples `count(Review.id)` to 3 and the "minimum 3 reviews for reliability"
`HAVING` admits a one-review candidate, which the strategy then ranks. -/
theorem C4_content_floor_eval :
    (get_content_based_recommendations dbFanContent 1 pDefault).map
      (fun it => it.book.id) = [20] ∧
    reviewCount dbFanContent 20 = 1 ∧ reviewCount dbFanContent 20 < 3 := by
  with_unfolding_all decide

end PlotTwist
